import Mathlib

/-!
Verification of the USB device-side control-transfer engine of
`src/usb/device/USBDevice/USBDevice.h` (mbed-os).

Only the class header is present in the sources, so the data model
(enumerations, structures, field widths, table capacity) is embedded from the
header, while the behaviour of the member functions it declares is modelled
from the specification document, as indicated on each definition.

Machine integers are embedded as `Nat` with explicit reduction modulo `2 ^ w`
at the points where the header declares a narrow field (for example the
`uint16_t max_packet_size` member of `endpoint_info_t`).
-/

set_option maxRecDepth 4000

namespace USBDevice

/-- From USBDevice.h lines 32-38: result of a control request handler. -/
inductive RequestResult
  | Receive
  | Send
  | Success
  | Failure
  | PassThrough
  deriving DecidableEq, Repr

/-- From USBDevice.h lines 40-46: the USB device lifecycle state. -/
inductive DeviceState
  | Attached
  | Powered
  | Default
  | Address
  | Configured
  deriving DecidableEq, Repr

/-- From USBDevice.h lines 49-53: the decomposed bmRequestType byte of a setup
packet.  The C field `Type` is spelled `Type_` because `Type` is reserved in
Lean. -/
structure bmRequestType_t where
  dataTransferDirection : Nat
  Type_ : Nat
  Recipient : Nat
  deriving DecidableEq, Repr

/-- From USBDevice.h lines 48-58: a decoded 8-byte USB setup packet. -/
structure setup_packet_t where
  bmRequestType : bmRequestType_t
  bRequest : Nat
  wValue : Nat
  wIndex : Nat
  wLength : Nat
  deriving DecidableEq, Repr

/-- From USBDevice.h lines 456-461: stage of the endpoint-0 control transfer
state machine. -/
inductive ControlState
  | Setup
  | DataOut
  | DataIn
  | Status
  deriving DecidableEq, Repr

/-- From USBDevice.h lines 463-472: the control transfer context.  The C
member `uint8_t *ptr` (current position in the borrowed data buffer) is
embedded as the byte offset from the start of the buffer. -/
structure control_transfer_t where
  setup : setup_packet_t
  ptr : Nat
  remaining : Nat
  direction : Nat
  zlp : Bool
  notify : Bool
  stage : ControlState
  user_callback : Bool
  deriving DecidableEq, Repr

/-- From USBDevice.h lines 443-448: one record of the endpoint table.  The
method pointer `callback` is embedded as an opaque token; `max_packet_size`
is a `uint16_t` in the header, so values stored there are reduced mod
`2 ^ 16`. -/
structure endpoint_info_t where
  callback : Option Nat
  max_packet_size : Nat
  flags : Nat
  pending : Nat
  deriving DecidableEq, Repr

/-- From USBDevice.h lines 450-454: lifecycle state, latched configuration
number (`uint8_t`) and suspend flag. -/
structure usb_device_t where
  state : DeviceState
  configuration : Nat
  suspended : Bool
  deriving DecidableEq, Repr

/-- Modelled from the spec: the missing USBDevice.cpp decodes the 8-byte
setup packet declared at USBDevice.h line 437 "exactly per the USB 2.0
specification section 9.3": byte 0 is the bmRequestType bitfield (bit 7 the
data transfer direction, bits 5-6 the request type, bits 0-4 the recipient),
byte 1 the request code, and bytes 2-3, 4-5, 6-7 the little-endian 16-bit
wValue, wIndex and wLength. -/
def decode_setup_packet (data : List Nat) : setup_packet_t :=
  let b := fun i => data.getD i 0
  { bmRequestType :=
      { dataTransferDirection := (b 0 &&& 0x80) >>> 7
        Type_ := (b 0 &&& 0x60) >>> 5
        Recipient := b 0 &&& 0x1f }
    bRequest := b 1
    wValue := b 2 ||| (b 3 <<< 8)
    wIndex := b 4 ||| (b 5 <<< 8)
    wLength := b 6 ||| (b 7 <<< 8) }

/-- Little-endian recombination: a low byte or-ed with a shifted high part is
their weighted sum, provided the low part fits below the shift. -/
theorem lor_shiftLeft_eq_add (k : Nat) :
    ∀ a b : Nat, a < 2 ^ k → a ||| (b <<< k) = a + b * 2 ^ k := by
  induction k with
  | zero =>
    intro a b h
    have ha : a = 0 := by omega
    subst ha
    simp [Nat.shiftLeft_eq]
  | succ k ih =>
    intro a b h
    have hbit : Nat.bit a.bodd a.div2 = a := Nat.bit_decomp a
    have hval : 2 * a.div2 + a.bodd.toNat = a := by
      have := hbit
      rwa [Nat.bit_val] at this
    have hd2 : a.div2 < 2 ^ k := by
      have hp : 2 ^ (k + 1) = 2 ^ k * 2 := Nat.pow_succ ..
      have hb : a.bodd.toNat ≤ 1 := by cases a.bodd <;> simp
      rw [Nat.div2_val]
      omega
    have hsh : b <<< (k + 1) = Nat.bit false (b <<< k) := by
      rw [Nat.bit_val, Nat.shiftLeft_eq, Nat.shiftLeft_eq, Nat.pow_succ]
      simp
      ring
    calc a ||| b <<< (k + 1)
        = Nat.bit a.bodd a.div2 ||| Nat.bit false (b <<< k) := by rw [hbit, hsh]
      _ = Nat.bit (a.bodd || false) (a.div2 ||| (b <<< k)) := Nat.lor_bit ..
      _ = Nat.bit a.bodd (a.div2 + b * 2 ^ k) := by rw [Bool.or_false, ih _ _ hd2]
      _ = a + b * 2 ^ (k + 1) := by
          rw [Nat.bit_val, Nat.pow_succ]
          have hb : a.bodd.toNat ≤ 1 := by cases a.bodd <;> simp
          have hm : b * (2 ^ k * 2) = 2 * (b * 2 ^ k) := by ring
          omega

theorem byte_mask_high_bit : ∀ b < 256, (b &&& 0x80) >>> 7 = b / 128 := by decide

theorem byte_mask_type_bits : ∀ b < 256, (b &&& 0x60) >>> 5 = b / 32 % 4 := by decide

theorem byte_mask_recipient_bits : ∀ b < 256, b &&& 0x1f = b % 32 := by decide

/-- C9: for every 8-byte input, `decode_setup_packet` follows the USB 2.0
section 9.3 layout: byte 0 splits into the data-transfer-direction bit
(bit 7), the request-type field (bits 5-6) and the recipient field
(bits 0-4); byte 1 is the request code; bytes 2-3, 4-5 and 6-7 are the
little-endian 16-bit wValue, wIndex and wLength. -/
theorem decode_setup_packet_usb_layout
    (b0 b1 b2 b3 b4 b5 b6 b7 : Nat)
    (h0 : b0 < 256) (h2 : b2 < 256) (h4 : b4 < 256) (h6 : b6 < 256) :
    decode_setup_packet [b0, b1, b2, b3, b4, b5, b6, b7] =
      { bmRequestType :=
          { dataTransferDirection := b0 / 128
            Type_ := b0 / 32 % 4
            Recipient := b0 % 32 }
        bRequest := b1
        wValue := b2 + 256 * b3
        wIndex := b4 + 256 * b5
        wLength := b6 + 256 * b7 } := by
  simp only [decode_setup_packet, List.getD_cons_zero, List.getD_cons_succ]
  congr 1
  · congr 1
    · exact byte_mask_high_bit b0 h0
    · exact byte_mask_type_bits b0 h0
    · exact byte_mask_recipient_bits b0 h0
  all_goals
    rw [lor_shiftLeft_eq_add 8 _ _ (by omega)]
    omega

/-- C9 witness: the standard GET_DESCRIPTOR(device) setup packet
`80 06 00 01 00 00 12 00` decodes to direction 1 (device-to-host), type 0
(standard), recipient 0 (device), request 6, wValue 0x0100, wLength 18. -/
theorem decode_setup_packet_usb_layout_witness :
    decode_setup_packet [0x80, 0x06, 0x00, 0x01, 0x00, 0x00, 0x12, 0x00] =
      { bmRequestType :=
          { dataTransferDirection := 1, Type_ := 0, Recipient := 0 }
        bRequest := 6
        wValue := 256
        wIndex := 0
        wLength := 18 } := by
  have h := decode_setup_packet_usb_layout 0x80 0x06 0x00 0x01 0x00 0x00 0x12 0x00
    (by decide) (by decide) (by decide) (by decide)
  simpa using h

/-- Modelled from the spec: the cleared `ControlTransferContext` installed at
the start of every new Setup stage and whenever an in-flight transfer is
discarded (spec sections 3 and 4.1); every field of the missing
implementation's `control_transfer_t` (header lines 463-472) is reset. -/
def reset_transfer : control_transfer_t :=
  { setup := { bmRequestType := { dataTransferDirection := 0, Type_ := 0, Recipient := 0 }
               bRequest := 0, wValue := 0, wIndex := 0, wLength := 0 }
    ptr := 0
    remaining := 0
    direction := 0
    zlp := false
    notify := false
    stage := ControlState.Setup
    user_callback := false }

/-- Modelled from the spec: starting the IN data stage for a response buffer
of `size` bytes (the missing implementation behind `complete_request` /
`control_setup_continue`, header lines 341 and 436).  The transfer length is
the response size clamped to the host-requested `wLength`, and per spec
section 4.1 a zero-length packet is scheduled (the `zlp` flag) exactly when
that length is a non-zero exact multiple of the endpoint-0 max packet size
`P`. -/
def control_in_prepare (P size : Nat) (t : control_transfer_t) : control_transfer_t :=
  let L := min size t.setup.wLength
  { t with ptr := 0
           remaining := L
           zlp := decide (L ≠ 0 ∧ L % P = 0)
           stage := ControlState.DataIn }

/-- Modelled from the spec: one ep0-in hardware packet event during the IN
data stage (the missing implementation behind `control_in`, header line 426).
It writes the next chunk of at most `P` bytes and advances `ptr` and
`remaining` by the packet-size increment; once `remaining` is zero it writes
the scheduled zero-length packet if the `zlp` flag is set, and otherwise the
data stage is over (`none`).  The emitted packet size is returned with the
updated context. -/
def control_in (P : Nat) (t : control_transfer_t) : Option (Nat × control_transfer_t) :=
  if t.stage ≠ ControlState.DataIn then none
  else if t.remaining = 0 then
    if t.zlp then some (0, { t with zlp := false }) else none
  else
    let packet_size := min t.remaining P
    some (packet_size,
      { t with ptr := t.ptr + packet_size, remaining := t.remaining - packet_size })

/-- Fuel-bounded iteration of `control_in`: the sizes of all packets the
engine emits for the rest of the IN data stage. -/
def control_in_packets_fuel (P : Nat) : Nat → control_transfer_t → List Nat
  | 0, _ => []
  | fuel + 1, t =>
    match control_in P t with
    | none => []
    | some (ps, t') => ps :: control_in_packets_fuel P fuel t'

/-- Sizes of all packets emitted for the rest of the IN data stage (the fuel
`remaining + 2` is enough for every chunk plus the zero-length packet). -/
def control_in_packets (P : Nat) (t : control_transfer_t) : List Nat :=
  control_in_packets_fuel P (t.remaining + 2) t

/-- Fuel-bounded worker for `dataPackets` (structural recursion on the fuel
so that concrete instances compute). -/
def dataPacketsAux (P : Nat) : Nat → Nat → List Nat
  | _, 0 => []
  | 0, _ + 1 => []
  | fuel + 1, L + 1 =>
    if L + 1 ≤ P then [L + 1] else P :: dataPacketsAux P fuel (L + 1 - P)

/-- Reference chunking of a transfer of `L` bytes into packets of at most `P`
bytes, in emission order (the fuel `L` always suffices for `P > 0`). -/
def dataPackets (P L : Nat) : List Nat := dataPacketsAux P L L

theorem dataPacketsAux_fuel_irrel (P : Nat) (hP : 0 < P) :
    ∀ L fuel fuel', L ≤ fuel → L ≤ fuel' →
      dataPacketsAux P fuel L = dataPacketsAux P fuel' L := by
  intro L
  induction L using Nat.strong_induction_on with
  | _ L ih =>
    intro fuel fuel' hf hf'
    rcases Nat.eq_zero_or_pos L with h0 | hL
    · subst h0
      cases fuel <;> cases fuel' <;> rfl
    · obtain ⟨L', rfl⟩ : ∃ L', L = L' + 1 := ⟨L - 1, by omega⟩
      obtain ⟨f, rfl⟩ : ∃ f, fuel = f + 1 := ⟨fuel - 1, by omega⟩
      obtain ⟨f', rfl⟩ : ∃ f', fuel' = f' + 1 := ⟨fuel' - 1, by omega⟩
      rw [dataPacketsAux, dataPacketsAux]
      rcases le_or_lt (L' + 1) P with hle | hlt
      · rw [if_pos hle, if_pos hle]
      · rw [if_neg (by omega), if_neg (by omega)]
        rw [ih (L' + 1 - P) (by omega) f f' (by omega) (by omega)]

theorem dataPackets_eq_cons (P L : Nat) (hP : 0 < P) (hL : 0 < L) :
    dataPackets P L = min L P :: dataPackets P (L - min L P) := by
  obtain ⟨L', rfl⟩ : ∃ L', L = L' + 1 := ⟨L - 1, by omega⟩
  rw [dataPackets, dataPacketsAux]
  rcases le_or_lt (L' + 1) P with hle | hlt
  · rw [if_pos hle]
    have hm : min (L' + 1) P = L' + 1 := by omega
    rw [hm]
    simp [dataPackets, dataPacketsAux]
  · rw [if_neg (by omega)]
    have hm : min (L' + 1) P = P := by omega
    rw [hm, dataPackets]
    rw [dataPacketsAux_fuel_irrel P hP (L' + 1 - P) L' (L' + 1 - P) (by omega) (by omega)]

theorem dataPackets_length (P : Nat) (hP : 0 < P) :
    ∀ L, (dataPackets P L).length = (L + P - 1) / P := by
  intro L
  induction L using Nat.strong_induction_on with
  | _ L ih =>
    rcases Nat.eq_zero_or_pos L with h0 | hL
    · subst h0
      have hd : (P - 1) / P = 0 := Nat.div_eq_of_lt (by omega)
      simp [dataPackets, dataPacketsAux, hd]
    · rw [dataPackets_eq_cons P L hP hL]
      rcases le_or_lt L P with hle | hlt
      · have hm : min L P = L := by omega
        rw [hm]
        simp only [Nat.sub_self, List.length_cons]
        have h1 : (L + P - 1) / P = 1 := by
          apply Nat.div_eq_of_lt_le
          · omega
          · omega
        simp [dataPackets, dataPacketsAux, h1]
      · have hm : min L P = P := by omega
        rw [hm, List.length_cons, ih (L - P) (by omega)]
        have hrw : L + P - 1 = (L - P + P - 1) + P := by omega
        rw [hrw, Nat.add_div_right _ hP]

theorem dataPackets_last_decomp (P : Nat) (hP : 0 < P) :
    ∀ L, 0 < L →
      ∃ front, dataPackets P L = front ++ [if L % P = 0 then P else L % P] := by
  intro L
  induction L using Nat.strong_induction_on with
  | _ L ih =>
    intro hL
    rw [dataPackets_eq_cons P L hP hL]
    rcases le_or_lt L P with hle | hlt
    · have hm : min L P = L := by omega
      rw [hm]
      simp only [Nat.sub_self]
      refine ⟨[], ?_⟩
      rcases Nat.lt_or_ge L P with hlt' | hge
      · have hmod : L % P = L := Nat.mod_eq_of_lt hlt'
        rw [hmod, if_neg (by omega)]
        simp [dataPackets, dataPacketsAux]
      · have hLP : L = P := by omega
        subst hLP
        simp [dataPackets, dataPacketsAux, Nat.mod_self]
    · have hm : min L P = P := by omega
      rw [hm]
      obtain ⟨front, hfront⟩ := ih (L - P) (by omega) (by omega)
      have hmod : (L - P) % P = L % P := by
        conv_rhs => rw [show L = (L - P) + P by omega]
        rw [Nat.add_mod_right]
      rw [hfront, hmod]
      exact ⟨P :: front, rfl⟩

theorem control_in_packets_fuel_eq (P : Nat) (hP : 0 < P) :
    ∀ L fuel (t : control_transfer_t), t.stage = ControlState.DataIn →
      t.remaining = L → L + 2 ≤ fuel →
      control_in_packets_fuel P fuel t
        = dataPackets P L ++ (if t.zlp then [0] else []) := by
  intro L
  induction L using Nat.strong_induction_on with
  | _ L ih =>
    intro fuel t hst hr hf
    obtain ⟨f', rfl⟩ : ∃ f', fuel = f' + 1 := ⟨fuel - 1, by omega⟩
    rcases Nat.eq_zero_or_pos L with h0 | hL
    · subst h0
      cases hz : t.zlp
      · simp [control_in_packets_fuel, control_in, hst, hr, hz, dataPackets, dataPacketsAux]
      · obtain ⟨f'', rfl⟩ : ∃ f'', f' = f'' + 1 := ⟨f' - 1, by omega⟩
        simp [control_in_packets_fuel, control_in, hst, hr, hz, dataPackets, dataPacketsAux]
    · have hstep : control_in P t = some (min L P,
          { t with ptr := t.ptr + min L P, remaining := L - min L P }) := by
        rw [control_in, if_neg (by simp [hst]), hr, if_neg (by omega)]
      rw [control_in_packets_fuel, hstep]
      have hrec := ih (L - min L P) (by omega) f'
        { t with ptr := t.ptr + min L P, remaining := L - min L P }
        (by simpa using hst) rfl (by omega)
      simp only [hrec]
      rw [dataPackets_eq_cons P L hP hL]
      rfl

/-- C1 as stated is false: with max packet size P = 1 and a one-byte
descriptor (L = 1, an exact non-zero multiple of P), the engine emits
exactly one data packet of size 1 followed by the scheduled zero-length
packet, and that last data packet is not shorter than P. -/
theorem control_in_one_byte_counterexample :
    control_in_packets 1
        (control_in_prepare 1 1
          { reset_transfer with
              setup := { bmRequestType :=
                           { dataTransferDirection := 1, Type_ := 0, Recipient := 0 }
                         bRequest := 6, wValue := 0, wIndex := 0, wLength := 1 }
              direction := 1 }) = [1, 0]
      ∧ (dataPackets 1 1).getLast? = some 1 ∧ ¬ (1 < 1) := by
  refine ⟨?_, ?_, by omega⟩
  · rfl
  · rfl

/-- C1 amended: for a control IN data stage transferring a descriptor of
length `L` (with `L` not exceeding the host-requested `wLength`) over
endpoint-0 max packet size `P > 0`, the engine emits exactly
`N = ceil(L / P)` data packets; the last data packet is shorter than `P`
exactly when `L` is not a non-zero exact multiple of `P` (when it is such a
multiple the last data packet has size exactly `P`); and one additional
zero-length packet is scheduled via the `zlp` flag if and only if `L` is a
non-zero exact multiple of `P` - so the final packet of the whole emission
is always shorter than `P`. -/
theorem control_in_data_stage_packets (P L : Nat) (t0 : control_transfer_t)
    (hP : 0 < P) (hw : L ≤ t0.setup.wLength) :
    let t := control_in_prepare P L t0
    control_in_packets P t
        = dataPackets P L ++ (if L ≠ 0 ∧ L % P = 0 then [0] else [])
      ∧ (dataPackets P L).length = (L + P - 1) / P
      ∧ (t.zlp = true ↔ (L ≠ 0 ∧ L % P = 0))
      ∧ (0 < L → ∃ front,
            dataPackets P L = front ++ [if L % P = 0 then P else L % P]
            ∧ ((if L % P = 0 then P else L % P) < P ↔ ¬(L ≠ 0 ∧ L % P = 0)))
      ∧ (0 < L → (control_in_packets P t).getLast? = some
            (if L ≠ 0 ∧ L % P = 0 then 0 else L % P)
            ∧ (if L ≠ 0 ∧ L % P = 0 then 0 else L % P) < P) := by
  intro t
  have hL : min L t0.setup.wLength = L := by omega
  have hrem : t.remaining = L := by simp [t, control_in_prepare, hL]
  have hst : t.stage = ControlState.DataIn := by simp [t, control_in_prepare]
  have hz : t.zlp = decide (L ≠ 0 ∧ L % P = 0) := by simp [t, control_in_prepare, hL]
  have hemit : control_in_packets P t
      = dataPackets P L ++ (if L ≠ 0 ∧ L % P = 0 then [0] else []) := by
    rw [control_in_packets, control_in_packets_fuel_eq P hP L _ t hst hrem (by omega), hz]
    by_cases hc : L ≠ 0 ∧ L % P = 0 <;> simp [hc]
  refine ⟨hemit, dataPackets_length P hP L, by simp [hz], ?_, ?_⟩
  · intro hLpos
    obtain ⟨front, hfront⟩ := dataPackets_last_decomp P hP L hLpos
    refine ⟨front, hfront, ?_⟩
    by_cases hm : L % P = 0
    · have hne : L ≠ 0 := by omega
      simp [hm, hne]
    · rw [if_neg hm]
      have hlt := Nat.mod_lt L hP
      constructor
      · intro _
        tauto
      · intro _
        exact hlt
  · intro hLpos
    rw [hemit]
    by_cases hm : L % P = 0
    · have hc : L ≠ 0 ∧ L % P = 0 := ⟨by omega, hm⟩
      simp only [if_pos hc]
      constructor
      · rw [List.getLast?_append]
        simp
      · exact hP
    · have hc : ¬(L ≠ 0 ∧ L % P = 0) := by tauto
      simp only [if_neg hc, List.append_nil]
      obtain ⟨front, hfront⟩ := dataPackets_last_decomp P hP L hLpos
      rw [hfront]
      constructor
      · rw [List.getLast?_append]
        simp [hm]
      · exact Nat.mod_lt L hP

/-- C1 witness: a 5-byte descriptor over max packet size 2 is emitted as the
three packets [2, 2, 1] (ceil(5/2) = 3), the last one short, with no
zero-length packet. -/
theorem control_in_data_stage_packets_witness :
    control_in_packets 2
        (control_in_prepare 2 5
          { reset_transfer with
              setup := { bmRequestType :=
                           { dataTransferDirection := 1, Type_ := 0, Recipient := 0 }
                         bRequest := 6, wValue := 0, wIndex := 0, wLength := 18 }
              direction := 1 }) = [2, 2, 1] := by
  have h := control_in_data_stage_packets 2 5
    { reset_transfer with
        setup := { bmRequestType :=
                     { dataTransferDirection := 1, Type_ := 0, Recipient := 0 }
                   bRequest := 6, wValue := 0, wIndex := 0, wLength := 18 }
        direction := 1 }
    (by omega) (by simp)
  rw [h.1]
  rfl

/-- From USBDevice_Types.h (outside src): the endpoint types accepted by
`endpoint_add` (header line 116 names USB_EP_TYPE_BULK, USB_EP_TYPE_INT and
USB_EP_TYPE_ISO). -/
inductive usb_ep_type_t
  | USB_EP_TYPE_BULK
  | USB_EP_TYPE_INT
  | USB_EP_TYPE_ISO
  deriving DecidableEq, Repr

/-- Modelled from the spec: the type/flag byte of an `EndpointRecord`
(spec section 3). -/
def ep_type_flags : usb_ep_type_t → Nat
  | .USB_EP_TYPE_BULK => 1
  | .USB_EP_TYPE_INT => 2
  | .USB_EP_TYPE_ISO => 3

/-- Modelled from the spec: a `usb_ep_t` byte carries the direction in bit 7
and the endpoint number in the low bits; the 30-slot table
(`endpoint_info[32 - 2]`, header line 474) has one slot per non-control
endpoint - numbers 1 to 15 in each direction - and no slot for the control
endpoints (number 0). -/
def EP_TO_INDEX (endpoint : Nat) : Option Nat :=
  let num := endpoint &&& 0x0f
  let dir := (endpoint &&& 0x80) >>> 7
  if num = 0 then none else some ((num - 1) * 2 + dir)

/-- Every valid endpoint index is below the table capacity of 30. -/
theorem EP_TO_INDEX_lt (endpoint i : Nat) (h : EP_TO_INDEX endpoint = some i) :
    i < 30 := by
  unfold EP_TO_INDEX at h
  have hnum : endpoint &&& 0x0f ≤ 0x0f := Nat.and_le_right
  have hdir : (endpoint &&& 0x80) >>> 7 ≤ 1 := by
    have h1 : endpoint &&& 0x80 ≤ 0x80 := Nat.and_le_right
    rw [Nat.shiftRight_eq_div_pow]
    omega
  by_cases h0 : endpoint &&& 0x0f = 0
  · simp [h0] at h
  · simp only [if_neg h0, Option.some.injEq] at h
    omega

/-- Modelled from the spec: the whole mutable state of one `USBDevice`
instance - the private members declared at header lines 474-487.  `phy` is
out of scope; the bus address the physical layer currently answers at is
tracked in `phy_address` so that the SET_ADDRESS timing requirement is
observable; `pending_configuration` and `pending_interface` model a
SET_CONFIGURATION or SET_INTERFACE delegated to the collaborator and
awaiting its asynchronous completion call; `descriptors` models the
collaborator-supplied descriptor accessors (spec section 6) as a table from
descriptor type (the high byte of wValue) to descriptor byte length, a
missing entry standing for an accessor returning NULL; `remote_wakeup` is
the device feature flag toggled by SET_FEATURE / CLEAR_FEATURE (spec 4.2). -/
structure State where
  endpoint_info : List (Option endpoint_info_t)
  transfer : control_transfer_t
  device : usb_device_t
  max_packet_size_ep0 : Nat
  current_interface : Nat
  current_alternate : Nat
  phy_address : Nat
  pending_configuration : Option Nat
  pending_interface : Option (Nat × Nat)
  descriptors : List (Nat × Nat)
  remote_wakeup : Bool
  deriving DecidableEq, Repr

/-- Outward-visible effects of one operation: collaborator callbacks and
physical-layer commands (spec section 6). -/
inductive Action
  | callback_power (powered : Bool)
  | callback_sof (frame : Nat)
  | callback_reset
  | callback_state_change (new_state : DeviceState)
  | callback_request
  | callback_request_xfer_done
  | callback_set_configuration (configuration : Nat)
  | callback_set_interface (interface alternate : Nat)
  | phy_ep0_write (size : Nat)
  | phy_ep0_stall
  | phy_set_address (address : Nat)
  | phy_endpoint_add (endpoint : Nat)
  | phy_endpoint_remove (endpoint : Nat)
  | phy_stall (endpoint : Nat)
  | phy_unstall (endpoint : Nat)
  deriving DecidableEq, Repr

/-- Modelled from the spec: `control_setup` / `begin(setup)` (header line
433, spec 4.1): resets the `ControlTransferContext`, decodes direction and
length from the packet, and transitions to DataIn or DataOut when
`wLength > 0` (by the decoded direction, 1 = device-to-host), else directly
to Status. -/
def control_setup (packet : setup_packet_t) : control_transfer_t :=
  { reset_transfer with
      setup := packet
      direction := packet.bmRequestType.dataTransferDirection
      stage :=
        if packet.wLength > 0 then
          if packet.bmRequestType.dataTransferDirection = 1 then ControlState.DataIn
          else ControlState.DataOut
        else ControlState.Status }

/-- The setup packet is the standard SET_ADDRESS request to the device
(request code 5, USB 2.0 chapter 9). -/
def is_set_address (p : setup_packet_t) : Bool :=
  p.bmRequestType.Type_ == 0 && p.bmRequestType.Recipient == 0 && p.bRequest == 5

/-- Modelled from the spec: `endpoint_add` (header line 120, spec 4.3):
fails when the endpoint identifier has no table slot (a control endpoint),
when the endpoint is already registered, or - the table being direct-mapped
with one slot per endpoint - when its slot is taken; otherwise it installs
an `EndpointRecord` and asks the physical layer to enable the endpoint.
The header's record field `max_packet_size` is a `uint16_t`, so the
`uint32_t` argument is stored reduced mod `2 ^ 16`.  No partial state on
failure. -/
def endpoint_add (s : State) (endpoint max_packet : Nat) (ty : usb_ep_type_t)
    (callback : Option Nat) : Bool × State × List Action :=
  match EP_TO_INDEX endpoint with
  | none => (false, s, [])
  | some i =>
    match s.endpoint_info.getD i none with
    | some _ => (false, s, [])
    | none =>
      let record : endpoint_info_t :=
        { callback := callback
          max_packet_size := max_packet % 65536
          flags := ep_type_flags ty
          pending := 0 }
      (true, { s with endpoint_info := s.endpoint_info.set i (some record) },
        [.phy_endpoint_add endpoint])

/-- Modelled from the spec: `endpoint_remove` (header line 143, spec 4.3):
requires a prior successful add; disables the endpoint in hardware and
clears the record. -/
def endpoint_remove (s : State) (endpoint : Nat) : Bool × State × List Action :=
  match EP_TO_INDEX endpoint with
  | none => (false, s, [])
  | some i =>
    match s.endpoint_info.getD i none with
    | none => (false, s, [])
    | some _ =>
      (true, { s with endpoint_info := s.endpoint_info.set i none },
        [.phy_endpoint_remove endpoint])

/-- Modelled from the spec: `endpoint_stall` (header line 152, spec 4.3):
sets protocol STALL on a registered non-control endpoint (bit 4 of the
record's flag byte in this model). -/
def endpoint_stall (s : State) (endpoint : Nat) : Bool × State × List Action :=
  match EP_TO_INDEX endpoint with
  | none => (false, s, [])
  | some i =>
    match s.endpoint_info.getD i none with
    | none => (false, s, [])
    | some r =>
      let record := { r with flags := r.flags ||| 16 }
      (true, { s with endpoint_info := s.endpoint_info.set i (some record) },
        [.phy_stall endpoint])

/-- Modelled from the spec: `endpoint_unstall` (header line 160, spec 4.3):
clears protocol STALL on a registered endpoint and resets its data toggle
and pending count. -/
def endpoint_unstall (s : State) (endpoint : Nat) : Bool × State × List Action :=
  match EP_TO_INDEX endpoint with
  | none => (false, s, [])
  | some i =>
    match s.endpoint_info.getD i none with
    | none => (false, s, [])
    | some r =>
      let record := { r with flags := r.flags &&& 15, pending := 0 }
      (true, { s with endpoint_info := s.endpoint_info.set i (some record) },
        [.phy_unstall endpoint])

/-- Modelled from the spec: `read_start` (header line 179, spec 4.3): arms
the hardware to accept the next packet; fails on an unregistered endpoint
or when a read is already pending (transient busy). -/
def read_start (s : State) (endpoint : Nat) : Bool × State :=
  match EP_TO_INDEX endpoint with
  | none => (false, s)
  | some i =>
    match s.endpoint_info.getD i none with
    | none => (false, s)
    | some r =>
      if r.pending ≠ 0 then (false, s)
      else
        let record := { r with pending := r.pending + 1 }
        (true, { s with endpoint_info := s.endpoint_info.set i (some record) })

/-- Modelled from the spec: `write` (header line 209, spec 4.3): starts a
single-packet transmit; fails when the endpoint is unregistered, when the
size exceeds the endpoint's max packet size, or when a previous write has
not yet completed. -/
def write (s : State) (endpoint size : Nat) : Bool × State :=
  match EP_TO_INDEX endpoint with
  | none => (false, s)
  | some i =>
    match s.endpoint_info.getD i none with
    | none => (false, s)
    | some r =>
      if size > r.max_packet_size ∨ r.pending ≠ 0 then (false, s)
      else
        let record := { r with pending := r.pending + 1 }
        (true, { s with endpoint_info := s.endpoint_info.set i (some record) })

/-- Modelled from the spec: `endpoint_max_packet_size` (header line 169):
returns the currently configured maximum packet size stored in the
endpoint's record (0 for an unregistered endpoint). -/
def endpoint_max_packet_size (s : State) (endpoint : Nat) : Nat :=
  match EP_TO_INDEX endpoint with
  | none => 0
  | some i =>
    match s.endpoint_info.getD i none with
    | none => 0
    | some r => r.max_packet_size

/-- Modelled from the spec: ending a control transfer with success (spec
4.1): the zero-length status-stage ACK is issued and the stage machine
moves to Status. -/
def control_success (s : State) : State × List Action :=
  ({ s with transfer := { s.transfer with stage := ControlState.Status } },
    [.phy_ep0_write 0])

/-- Modelled from the spec: ending a control transfer with failure (spec
4.1 and 7): a protocol STALL is issued on endpoint 0 and the stage machine
returns to Setup, ready for a fresh Setup packet. -/
def control_failure (s : State) : State × List Action :=
  ({ s with transfer := { s.transfer with stage := ControlState.Setup } },
    [.phy_ep0_stall])

/-- Modelled from the spec: beginning the device-to-host data stage with a
response buffer of `size` bytes (result Send of `complete_request`, spec
4.1): a direction mismatch with the setup packet is a Failure; otherwise
the IN data stage is armed - the transfer length clamped to the requested
wLength, the zlp flag scheduled for an exact non-zero multiple of the
endpoint-0 max packet size - and the `notify` flag records whether
data-stage completion must be reported upward (exactly when the data came
from the collaborator rather than from internal resolution). -/
def control_send (s : State) (size : Nat) : State × List Action :=
  if s.transfer.direction = 1 then
    ({ s with transfer :=
          { control_in_prepare s.max_packet_size_ep0 size s.transfer with
              notify := s.transfer.user_callback } }, [])
  else control_failure s

/-- Modelled from the spec: beginning the host-to-device data stage with a
receive buffer of `size` bytes (result Receive of `complete_request`, spec
4.1); a direction mismatch with the setup packet is a Failure. -/
def control_receive (s : State) (size : Nat) : State × List Action :=
  if s.transfer.direction = 0 then
    ({ s with transfer :=
          { s.transfer with
              ptr := 0
              remaining := min size s.transfer.setup.wLength
              stage := ControlState.DataOut
              notify := s.transfer.user_callback } }, [])
  else control_failure s

/-- Modelled from the spec: GET_DESCRIPTOR (`request_get_descriptor`,
header line 424; spec 4.2): the descriptor type in the high byte of wValue
selects a collaborator-supplied accessor; a known descriptor is sent
through the control IN data stage (internally a complete_request(Send),
spec 4.1), an unknown type is a Failure (STALL). -/
def request_get_descriptor (s : State) : State × List Action :=
  match s.descriptors.lookup (s.transfer.setup.wValue >>> 8) with
  | some len => control_send s len
  | none => control_failure s

/-- Modelled from the spec: SET_ADDRESS (`request_set_address`, header line
427; spec 4.2): the address is only latched - the value stays in the setup
packet's wValue until the Status stage of this same request completes - and
the request is accepted for recipient device while the lifecycle state is
Default or Address; anything else is a Failure. -/
def request_set_address (s : State) : State × List Action :=
  if s.transfer.setup.bmRequestType.Recipient = 0 then
    if s.device.state = DeviceState.Default
        ∨ s.device.state = DeviceState.Address then
      (s, [])
    else control_failure s
  else control_failure s

/-- Modelled from the spec: SET_CONFIGURATION (`request_set_configuration`,
header line 428; spec 4.2): accepted in Address or Configured (the
lifecycle tie-break of spec 4.2), delegating configuration teardown and
setup to the collaborator via `callback_set_configuration`; completion is
asynchronous through `complete_set_configuration`. -/
def request_set_configuration (s : State) : State × List Action :=
  if s.device.state = DeviceState.Address
      ∨ s.device.state = DeviceState.Configured then
    ({ s with pending_configuration := some (s.transfer.setup.wValue &&& 0xff) },
      [.callback_set_configuration (s.transfer.setup.wValue &&& 0xff)])
  else control_failure s

/-- Modelled from the spec: SET_INTERFACE (`request_set_interface`, header
line 440; spec 4.2): delegated asynchronously to the collaborator via
`callback_set_interface` / `complete_set_interface`; the interface number
comes from wIndex and the alternate setting from wValue. -/
def request_set_interface (s : State) : State × List Action :=
  ({ s with pending_interface :=
        some (s.transfer.setup.wIndex, s.transfer.setup.wValue &&& 0xff) },
    [.callback_set_interface s.transfer.setup.wIndex
      (s.transfer.setup.wValue &&& 0xff)])

/-- Modelled from the spec: GET_CONFIGURATION (`request_get_configuration`,
header line 438; spec 4.2): returns the currently stored configuration
number, one byte over the control IN data stage. -/
def request_get_configuration (s : State) : State × List Action :=
  control_send s 1

/-- Modelled from the spec: GET_INTERFACE (`request_get_interface`, header
line 439; spec 4.2): returns the active alternate setting, one byte over
the control IN data stage. -/
def request_get_interface (s : State) : State × List Action :=
  control_send s 1

/-- Modelled from the spec: GET_STATUS (`request_get_status`, header line
431; spec 4.2): returns a 2-byte status bitfield - the device's
remote-wakeup / self-powered bits or the endpoint's halt bit, depending on
recipient - over the control IN data stage. -/
def request_get_status (s : State) : State × List Action :=
  control_send s 2

/-- Modelled from the spec: SET_FEATURE (`request_set_feature`, header line
429; spec 4.2): for recipient device it sets the remote-wakeup capability
flag; for recipient endpoint it sets protocol STALL on the endpoint named
by wIndex; both acknowledge with Success; other recipients are Failures. -/
def request_set_feature (s : State) : State × List Action :=
  if s.transfer.setup.bmRequestType.Recipient = 0 then
    control_success { s with remote_wakeup := true }
  else if s.transfer.setup.bmRequestType.Recipient = 2 then
    let r := endpoint_stall s (s.transfer.setup.wIndex &&& 0xff)
    let r2 := control_success r.2.1
    (r2.1, r.2.2 ++ r2.2)
  else control_failure s

/-- Modelled from the spec: CLEAR_FEATURE (`request_clear_feature`, header
line 430; spec 4.2): for recipient device it clears the remote-wakeup
capability flag; for recipient endpoint it clears protocol STALL on the
endpoint named by wIndex, also resetting its data-toggle synchronisation;
both acknowledge with Success; other recipients are Failures. -/
def request_clear_feature (s : State) : State × List Action :=
  if s.transfer.setup.bmRequestType.Recipient = 0 then
    control_success { s with remote_wakeup := false }
  else if s.transfer.setup.bmRequestType.Recipient = 2 then
    let r := endpoint_unstall s (s.transfer.setup.wIndex &&& 0xff)
    let r2 := control_success r.2.1
    (r2.1, r.2.2 ++ r2.2)
  else control_failure s

/-- Modelled from the spec: the local resolution of the nine mandatory
standard requests (spec 4.2; request codes per USB 2.0 chapter 9:
GET_STATUS 0, CLEAR_FEATURE 1, SET_FEATURE 3, SET_ADDRESS 5,
GET_DESCRIPTOR 6, GET_CONFIGURATION 8, SET_CONFIGURATION 9,
GET_INTERFACE 10, SET_INTERFACE 11) - `none` for a non-standard request
type or any other request code. -/
def request_setup_standard (s : State) : Option (State × List Action) :=
  if s.transfer.setup.bmRequestType.Type_ ≠ 0 then none
  else if s.transfer.setup.bRequest = 0 then some (request_get_status s)
  else if s.transfer.setup.bRequest = 1 then some (request_clear_feature s)
  else if s.transfer.setup.bRequest = 3 then some (request_set_feature s)
  else if s.transfer.setup.bRequest = 5 then some (request_set_address s)
  else if s.transfer.setup.bRequest = 6 then some (request_get_descriptor s)
  else if s.transfer.setup.bRequest = 8 then some (request_get_configuration s)
  else if s.transfer.setup.bRequest = 9 then some (request_set_configuration s)
  else if s.transfer.setup.bRequest = 10 then some (request_get_interface s)
  else if s.transfer.setup.bRequest = 11 then some (request_set_interface s)
  else none

/-- Modelled from the spec: `request_setup` (header line 432, spec 4.2):
the nine mandatory standard requests are resolved locally, without
delegation; any other type/request combination is forwarded once to the
device-class collaborator (`callback_request`), whose response arrives
through `complete_request`. -/
def request_setup (s : State) : State × List Action :=
  match request_setup_standard s with
  | some r => r
  | none =>
    ({ s with transfer := { s.transfer with user_callback := true } },
      [.callback_request])

/-- Modelled from the spec: `complete_request` (header line 341, spec 4.1):
Receive and Send begin a data stage in the host direction with the supplied
buffer of `size` bytes; Success ends the transfer immediately by issuing
the status-stage ACK; Failure ends it with a protocol STALL on endpoint 0;
PassThrough defers the request to the default standard-request handling,
and a request not even that resolves STALLs (spec 4.2). -/
def complete_request (s : State) (result : RequestResult) (size : Nat) :
    State × List Action :=
  match result with
  | .Send => control_send s size
  | .Receive => control_receive s size
  | .Success => control_success s
  | .Failure => control_failure s
  | .PassThrough =>
    match request_setup_standard s with
    | some r => r
    | none => control_failure s

/-- Modelled from the spec: `change_state` (header line 441, spec 4.4): the
single mutator of the lifecycle state; notifies the collaborator through
`callback_state_change` when the state actually changes. -/
def change_state (s : State) (new_state : DeviceState) : State × List Action :=
  if s.device.state = new_state then (s, [])
  else
    ({ s with device := { s.device with state := new_state } },
      [.callback_state_change new_state])

/-- Modelled from the spec: the bus reset event (`reset`, header line 417;
spec 4.4 and 8): notifies the collaborator via `callback_reset` before the
state change, discards any in-flight control transfer, clears the endpoint
table's pending flags, drops every pending asynchronous completion, clears
the remote-wakeup feature, the latched configuration and the applied bus
address (Default entails an unconfigured, address-0 device), and forces the
lifecycle state to Default. -/
def reset (s : State) : State × List Action :=
  let s1 := { s with
      endpoint_info :=
        s.endpoint_info.map (Option.map (fun r => { r with pending := 0 }))
      transfer := reset_transfer
      device := { s.device with configuration := 0, suspended := false }
      phy_address := 0
      pending_configuration := none
      pending_interface := none
      remote_wakeup := false }
  let r := change_state s1 DeviceState.Default
  (r.1, Action.callback_reset :: r.2)

/-- Modelled from the spec: the ep0 setup event (`ep0_setup`, header line
418; spec 4.1): any transfer in progress is unconditionally aborted first
(`control_abort_start`, header line 435) - none of the discarded transfer's
completion callbacks fire and its pending asynchronous completions are
dropped - then the new packet is decoded and processing restarts from the
Setup stage with a fresh context, followed by standard-request dispatch. -/
def ep0_setup (s : State) (data : List Nat) : State × List Action :=
  let packet := decode_setup_packet data
  request_setup
    { s with transfer := control_setup packet
             pending_configuration := none
             pending_interface := none }

/-- Modelled from the spec: the ep0 IN event (`ep0_in`, header line 420,
handled by `control_in`, header line 426): in the DataIn stage the next
chunk is emitted and, once the data is exhausted, data-stage completion is
reported upward (`callback_request_xfer_done`, for a transfer the
collaborator supplied) and the stage advances to Status; in the Status
stage the IN status packet has completed - the point where a latched
SET_ADDRESS is applied to the physical layer and a non-zero address moves
the lifecycle state to Address (spec 4.2) - and the machine returns to
Setup; any other stage is a protocol error: abort and STALL (spec 7). -/
def ep0_in (s : State) : State × List Action :=
  match s.transfer.stage with
  | ControlState.DataIn =>
    match control_in s.max_packet_size_ep0 s.transfer with
    | some (ps, t') => ({ s with transfer := t' }, [.phy_ep0_write ps])
    | none =>
      ({ s with transfer :=
            { s.transfer with stage := ControlState.Status, notify := false } },
        if s.transfer.notify then [.callback_request_xfer_done] else [])
  | ControlState.Status =>
    let p := s.transfer.setup
    if is_set_address p then
      let r := change_state
        { s with transfer := { s.transfer with stage := ControlState.Setup }
                 phy_address := p.wValue }
        (if p.wValue ≠ 0 then DeviceState.Address else s.device.state)
      (r.1, Action.phy_set_address p.wValue :: r.2)
    else
      ({ s with transfer := { s.transfer with stage := ControlState.Setup } }, [])
  | _ =>
    ({ s with transfer := { s.transfer with stage := ControlState.Setup } },
      [.phy_ep0_stall])

/-- Modelled from the spec: the ep0 OUT event (`ep0_out`, header line 419,
handled by `control_out`, header line 425): in the DataOut stage the
received packet advances the transfer by up to one max packet and data-stage
completion is reported upward when the expected data is in; in the Status
stage the zero-length OUT status packet of a device-to-host transfer has
completed and the machine returns to Setup; other stages are protocol
errors: abort and STALL (spec 7). -/
def ep0_out (s : State) : State × List Action :=
  match s.transfer.stage with
  | ControlState.DataOut =>
    let ps := min s.transfer.remaining s.max_packet_size_ep0
    let rem := s.transfer.remaining - ps
    if rem = 0 then
      ({ s with transfer :=
            { s.transfer with
                ptr := s.transfer.ptr + ps
                remaining := 0
                stage := ControlState.Status
                notify := false } },
        if s.transfer.notify then [.callback_request_xfer_done] else [])
    else
      ({ s with transfer :=
            { s.transfer with ptr := s.transfer.ptr + ps, remaining := rem } }, [])
  | ControlState.Status =>
    ({ s with transfer := { s.transfer with stage := ControlState.Setup } }, [])
  | _ =>
    ({ s with transfer := { s.transfer with stage := ControlState.Setup } },
      [.phy_ep0_stall])

/-- Modelled from the spec: `complete_set_configuration` (header line 366,
spec 4.2): reports the asynchronous outcome of a delegated
SET_CONFIGURATION.  On success the configuration number is latched and the
lifecycle state becomes Configured for a non-zero configuration or Address
for configuration zero, then the transfer is acknowledged (Success); on
failure the request stalls.  Without a pending SET_CONFIGURATION the call
has no effect. -/
def complete_set_configuration (s : State) (success : Bool) :
    State × List Action :=
  match s.pending_configuration with
  | none => (s, [])
  | some c =>
    if success then
      let s1 := { s with
          device := { s.device with configuration := c }
          pending_configuration := none }
      let r := change_state s1
        (if c ≠ 0 then DeviceState.Configured else DeviceState.Address)
      let r2 := control_success r.1
      (r2.1, r.2 ++ r2.2)
    else
      control_failure { s with pending_configuration := none }

/-- Modelled from the spec: `complete_set_interface` (header line 380, spec
4.2): reports the asynchronous outcome of a delegated SET_INTERFACE.  On
success the interface / alternate selection is stored and the transfer is
acknowledged (Success); on failure the request stalls.  Without a pending
SET_INTERFACE the call has no effect. -/
def complete_set_interface (s : State) (success : Bool) :
    State × List Action :=
  match s.pending_interface with
  | none => (s, [])
  | some p =>
    if success then
      control_success
        { s with current_interface := p.1
                 current_alternate := p.2
                 pending_interface := none }
    else
      control_failure { s with pending_interface := none }

/-- The alphabet of operations delivered to one device instance:
physical-layer events (interrupt context) and the public thread-context
API, each running to completion (spec section 5). -/
inductive Op
  | power (powered : Bool)
  | suspend (suspended : Bool)
  | sof (frame : Nat)
  | reset
  | ep0_setup (data : List Nat)
  | ep0_in
  | ep0_out
  | endpoint_add (endpoint max_packet : Nat) (ty : usb_ep_type_t)
      (callback : Option Nat)
  | endpoint_remove (endpoint : Nat)
  | endpoint_stall (endpoint : Nat)
  | endpoint_unstall (endpoint : Nat)
  | read_start (endpoint : Nat)
  | write (endpoint size : Nat)
  | complete_request (result : RequestResult) (size : Nat)
  | complete_set_configuration (success : Bool)
  | complete_set_interface (success : Bool)

/-- One atomic operation of the device model: the state update plus the
emitted outward actions.  The public `complete_request` entry point only
acts while a collaborator request is in progress (`user_callback`), the
header requiring it to be called in response to `callback_request`
(header lines 331-341); power, suspend and start-of-frame events are passed
through without altering lifecycle state (spec 4.4). -/
def step (s : State) (op : Op) : State × List Action :=
  match op with
  | .power powered => (s, [.callback_power powered])
  | .suspend suspended =>
    ({ s with device := { s.device with suspended := suspended } }, [])
  | .sof frame => (s, [.callback_sof frame])
  | .reset => reset s
  | .ep0_setup data => ep0_setup s data
  | .ep0_in => ep0_in s
  | .ep0_out => ep0_out s
  | .endpoint_add endpoint max_packet ty callback =>
    (endpoint_add s endpoint max_packet ty callback).2
  | .endpoint_remove endpoint => (endpoint_remove s endpoint).2
  | .endpoint_stall endpoint => (endpoint_stall s endpoint).2
  | .endpoint_unstall endpoint => (endpoint_unstall s endpoint).2
  | .read_start endpoint => ((read_start s endpoint).2, [])
  | .write endpoint size => ((write s endpoint size).2, [])
  | .complete_request result size =>
    if s.transfer.user_callback then complete_request s result size else (s, [])
  | .complete_set_configuration success => complete_set_configuration s success
  | .complete_set_interface success => complete_set_interface s success

/-- Modelled from the spec: a freshly initialised, attached device: empty
30-slot endpoint table, cleared control transfer context, lifecycle state
Attached, configuration 0, bus address 0, endpoint-0 max packet size `P`
as negotiated with the physical layer, and the default 18-byte device
descriptor (type 1; `device_descriptor[18]`, header line 410) as the only
built-in descriptor accessor. -/
def initState (P : Nat) : State :=
  { endpoint_info := List.replicate 30 none
    transfer := reset_transfer
    device := { state := DeviceState.Attached, configuration := 0, suspended := false }
    max_packet_size_ep0 := P
    current_interface := 0
    current_alternate := 0
    phy_address := 0
    pending_configuration := none
    pending_interface := none
    descriptors := [(1, 18)]
    remote_wakeup := false }

/-- States reachable from a freshly initialised device by any sequence of
operations. -/
inductive Reachable : State → Prop
  | init : ∀ P, Reachable (initState P)
  | next : ∀ s op, Reachable s → Reachable (step s op).1

/-- C5: for every received setup packet the Setup-stage handler resets the
ControlTransferContext (buffer position, remaining count, zlp, notify and
user_callback all cleared, the new packet and its decoded direction stored)
and then transitions to DataIn or DataOut according to the decoded
direction when wLength > 0, and directly to Status - skipping the data
stage entirely - when wLength = 0. -/
theorem control_setup_stage_decision (packet : setup_packet_t) :
    (control_setup packet).setup = packet
    ∧ (control_setup packet).ptr = 0
    ∧ (control_setup packet).remaining = 0
    ∧ (control_setup packet).zlp = false
    ∧ (control_setup packet).notify = false
    ∧ (control_setup packet).user_callback = false
    ∧ (control_setup packet).direction = packet.bmRequestType.dataTransferDirection
    ∧ (packet.wLength > 0 →
        (control_setup packet).stage =
          (if packet.bmRequestType.dataTransferDirection = 1 then ControlState.DataIn
           else ControlState.DataOut))
    ∧ (packet.wLength = 0 → (control_setup packet).stage = ControlState.Status) := by
  refine ⟨rfl, rfl, rfl, rfl, rfl, rfl, rfl, ?_, ?_⟩
  · intro h
    simp [control_setup, h]
  · intro h
    simp [control_setup, h]

/-- C5 witness: a GET_DESCRIPTOR(device) setup packet (wLength 18,
device-to-host) moves the handler into the DataIn stage, and the
zero-length SET_ADDRESS packet moves it directly to Status. -/
theorem control_setup_stage_decision_witness :
    (control_setup
        { bmRequestType := { dataTransferDirection := 1, Type_ := 0, Recipient := 0 }
          bRequest := 6, wValue := 256, wIndex := 0, wLength := 18 }).stage
      = ControlState.DataIn
    ∧ (control_setup
        { bmRequestType := { dataTransferDirection := 0, Type_ := 0, Recipient := 0 }
          bRequest := 5, wValue := 5, wIndex := 0, wLength := 0 }).stage
      = ControlState.Status := by
  constructor
  · have h := (control_setup_stage_decision
      { bmRequestType := { dataTransferDirection := 1, Type_ := 0, Recipient := 0 }
        bRequest := 6, wValue := 256, wIndex := 0, wLength := 18 }).2.2.2.2.2.2.2.1
      (by decide)
    simpa using h
  · exact (control_setup_stage_decision
      { bmRequestType := { dataTransferDirection := 0, Type_ := 0, Recipient := 0 }
        bRequest := 5, wValue := 5, wIndex := 0, wLength := 0 }).2.2.2.2.2.2.2.2
      (by decide)

/-- C3: from every device state - reachable ones included - the bus reset
event discards any in-flight control transfer (the whole context is
cleared), forces ControlTransferState back to Setup and forces
DeviceLifecycleState to Default, regardless of the prior state. -/
theorem reset_forces_default_from_any_state (s : State) :
    (step s Op.reset).1.transfer = reset_transfer
    ∧ (step s Op.reset).1.transfer.stage = ControlState.Setup
    ∧ (step s Op.reset).1.device.state = DeviceState.Default := by
  show ((reset s).1.transfer = reset_transfer)
    ∧ ((reset s).1.transfer.stage = ControlState.Setup)
    ∧ ((reset s).1.device.state = DeviceState.Default)
  unfold reset change_state
  by_cases h : s.device.state = DeviceState.Default <;>
    simp [h, reset_transfer]

/-- Shared helper: `change_state` always leaves the device in the requested
lifecycle state. -/
theorem change_state_sets_state (s : State) (t : DeviceState) :
    (change_state s t).1.device.state = t := by
  unfold change_state
  split_ifs with h
  · exact h
  · rfl

/-- Shared helper: `change_state` touches nothing but the lifecycle state. -/
theorem change_state_preserves (s : State) (t : DeviceState) :
    (change_state s t).1.endpoint_info = s.endpoint_info
    ∧ (change_state s t).1.transfer = s.transfer
    ∧ (change_state s t).1.phy_address = s.phy_address
    ∧ (change_state s t).1.device.configuration = s.device.configuration
    ∧ (change_state s t).1.pending_configuration = s.pending_configuration
    ∧ (change_state s t).1.pending_interface = s.pending_interface := by
  unfold change_state
  split_ifs <;> simp

/-- Shared helper: `endpoint_add` keeps everything but the endpoint table. -/
theorem endpoint_add_preserves_control (s : State) (e m : Nat)
    (ty : usb_ep_type_t) (cb : Option Nat) :
    (endpoint_add s e m ty cb).2.1.device = s.device
    ∧ (endpoint_add s e m ty cb).2.1.transfer = s.transfer
    ∧ (endpoint_add s e m ty cb).2.1.pending_configuration
        = s.pending_configuration
    ∧ (endpoint_add s e m ty cb).2.1.pending_interface = s.pending_interface := by
  cases hj : EP_TO_INDEX e with
  | none => simp [endpoint_add, hj]
  | some j =>
    cases hrj : s.endpoint_info.getD j none with
    | some r => simp [endpoint_add, hj, hrj, -List.getD_eq_getElem?_getD]
    | none => simp [endpoint_add, hj, hrj, -List.getD_eq_getElem?_getD]

/-- Shared helper: `endpoint_remove` keeps everything but the endpoint
table. -/
theorem endpoint_remove_preserves_control (s : State) (e : Nat) :
    (endpoint_remove s e).2.1.device = s.device
    ∧ (endpoint_remove s e).2.1.transfer = s.transfer
    ∧ (endpoint_remove s e).2.1.pending_configuration
        = s.pending_configuration
    ∧ (endpoint_remove s e).2.1.pending_interface = s.pending_interface := by
  cases hj : EP_TO_INDEX e with
  | none => simp [endpoint_remove, hj]
  | some j =>
    cases hrj : s.endpoint_info.getD j none with
    | some r => simp [endpoint_remove, hj, hrj, -List.getD_eq_getElem?_getD]
    | none => simp [endpoint_remove, hj, hrj, -List.getD_eq_getElem?_getD]

/-- Shared helper: `endpoint_stall` keeps everything but the endpoint
table. -/
theorem endpoint_stall_preserves_control (s : State) (e : Nat) :
    (endpoint_stall s e).2.1.device = s.device
    ∧ (endpoint_stall s e).2.1.transfer = s.transfer
    ∧ (endpoint_stall s e).2.1.pending_configuration
        = s.pending_configuration
    ∧ (endpoint_stall s e).2.1.pending_interface = s.pending_interface := by
  cases hj : EP_TO_INDEX e with
  | none => simp [endpoint_stall, hj]
  | some j =>
    cases hrj : s.endpoint_info.getD j none with
    | some r => simp [endpoint_stall, hj, hrj, -List.getD_eq_getElem?_getD]
    | none => simp [endpoint_stall, hj, hrj, -List.getD_eq_getElem?_getD]

/-- Shared helper: `endpoint_unstall` keeps everything but the endpoint
table. -/
theorem endpoint_unstall_preserves_control (s : State) (e : Nat) :
    (endpoint_unstall s e).2.1.device = s.device
    ∧ (endpoint_unstall s e).2.1.transfer = s.transfer
    ∧ (endpoint_unstall s e).2.1.pending_configuration
        = s.pending_configuration
    ∧ (endpoint_unstall s e).2.1.pending_interface = s.pending_interface := by
  cases hj : EP_TO_INDEX e with
  | none => simp [endpoint_unstall, hj]
  | some j =>
    cases hrj : s.endpoint_info.getD j none with
    | some r => simp [endpoint_unstall, hj, hrj, -List.getD_eq_getElem?_getD]
    | none => simp [endpoint_unstall, hj, hrj, -List.getD_eq_getElem?_getD]

/-- Shared helper: `read_start` keeps everything but the endpoint table. -/
theorem read_start_preserves_control (s : State) (e : Nat) :
    (read_start s e).2.device = s.device
    ∧ (read_start s e).2.transfer = s.transfer
    ∧ (read_start s e).2.pending_configuration = s.pending_configuration
    ∧ (read_start s e).2.pending_interface = s.pending_interface := by
  cases hj : EP_TO_INDEX e with
  | none => simp [read_start, hj]
  | some j =>
    cases hrj : s.endpoint_info.getD j none with
    | none => simp [read_start, hj, hrj, -List.getD_eq_getElem?_getD]
    | some r =>
      by_cases hp : r.pending ≠ 0 <;>
        simp [read_start, hj, hrj, hp, -List.getD_eq_getElem?_getD]

/-- Shared helper: `write` keeps everything but the endpoint table. -/
theorem write_preserves_control (s : State) (e size : Nat) :
    (write s e size).2.device = s.device
    ∧ (write s e size).2.transfer = s.transfer
    ∧ (write s e size).2.pending_configuration = s.pending_configuration
    ∧ (write s e size).2.pending_interface = s.pending_interface := by
  cases hj : EP_TO_INDEX e with
  | none => simp [write, hj]
  | some j =>
    cases hrj : s.endpoint_info.getD j none with
    | none => simp [write, hj, hrj, -List.getD_eq_getElem?_getD]
    | some r =>
      by_cases hp : size > r.max_packet_size ∨ r.pending ≠ 0 <;>
        simp [write, hj, hrj, hp, -List.getD_eq_getElem?_getD]

/-- Shared helper: `control_success` keeps the device record, the stored
setup packet, the user_callback flag, both pending completions and the
endpoint table. -/
theorem control_success_preserves (s : State) :
    (control_success s).1.device = s.device
    ∧ (control_success s).1.transfer.setup = s.transfer.setup
    ∧ (control_success s).1.transfer.user_callback = s.transfer.user_callback
    ∧ (control_success s).1.pending_configuration = s.pending_configuration
    ∧ (control_success s).1.pending_interface = s.pending_interface
    ∧ (control_success s).1.endpoint_info = s.endpoint_info :=
  ⟨rfl, rfl, rfl, rfl, rfl, rfl⟩

/-- Shared helper: `control_failure` keeps the device record, the stored
setup packet, the user_callback flag, both pending completions and the
endpoint table. -/
theorem control_failure_preserves (s : State) :
    (control_failure s).1.device = s.device
    ∧ (control_failure s).1.transfer.setup = s.transfer.setup
    ∧ (control_failure s).1.transfer.user_callback = s.transfer.user_callback
    ∧ (control_failure s).1.pending_configuration = s.pending_configuration
    ∧ (control_failure s).1.pending_interface = s.pending_interface
    ∧ (control_failure s).1.endpoint_info = s.endpoint_info :=
  ⟨rfl, rfl, rfl, rfl, rfl, rfl⟩

/-- Shared helper: `control_send` keeps the device record, the stored setup
packet, the user_callback flag, both pending completions and the endpoint
table. -/
theorem control_send_preserves (s : State) (size : Nat) :
    (control_send s size).1.device = s.device
    ∧ (control_send s size).1.transfer.setup = s.transfer.setup
    ∧ (control_send s size).1.transfer.user_callback = s.transfer.user_callback
    ∧ (control_send s size).1.pending_configuration = s.pending_configuration
    ∧ (control_send s size).1.pending_interface = s.pending_interface
    ∧ (control_send s size).1.endpoint_info = s.endpoint_info := by
  unfold control_send
  split_ifs
  · exact ⟨rfl, rfl, rfl, rfl, rfl, rfl⟩
  · exact control_failure_preserves s

/-- Shared helper: `control_receive` keeps the device record, the stored
setup packet, the user_callback flag, both pending completions and the
endpoint table. -/
theorem control_receive_preserves (s : State) (size : Nat) :
    (control_receive s size).1.device = s.device
    ∧ (control_receive s size).1.transfer.setup = s.transfer.setup
    ∧ (control_receive s size).1.transfer.user_callback = s.transfer.user_callback
    ∧ (control_receive s size).1.pending_configuration = s.pending_configuration
    ∧ (control_receive s size).1.pending_interface = s.pending_interface
    ∧ (control_receive s size).1.endpoint_info = s.endpoint_info := by
  unfold control_receive
  split_ifs
  · exact ⟨rfl, rfl, rfl, rfl, rfl, rfl⟩
  · exact control_failure_preserves s

/-- Shared helper: GET_DESCRIPTOR keeps the device record, the stored setup
packet, the user_callback flag, both pending completions and the endpoint
table. -/
theorem request_get_descriptor_preserves (s : State) :
    (request_get_descriptor s).1.device = s.device
    ∧ (request_get_descriptor s).1.transfer.setup = s.transfer.setup
    ∧ (request_get_descriptor s).1.transfer.user_callback
        = s.transfer.user_callback
    ∧ (request_get_descriptor s).1.pending_configuration
        = s.pending_configuration
    ∧ (request_get_descriptor s).1.pending_interface = s.pending_interface
    ∧ (request_get_descriptor s).1.endpoint_info = s.endpoint_info := by
  unfold request_get_descriptor
  cases h : s.descriptors.lookup (s.transfer.setup.wValue >>> 8) with
  | some len => exact control_send_preserves s len
  | none => exact control_failure_preserves s

/-- Shared helper: GET_STATUS keeps the device record, the stored setup
packet, the user_callback flag, both pending completions and the endpoint
table. -/
theorem request_get_status_preserves (s : State) :
    (request_get_status s).1.device = s.device
    ∧ (request_get_status s).1.transfer.setup = s.transfer.setup
    ∧ (request_get_status s).1.transfer.user_callback = s.transfer.user_callback
    ∧ (request_get_status s).1.pending_configuration = s.pending_configuration
    ∧ (request_get_status s).1.pending_interface = s.pending_interface
    ∧ (request_get_status s).1.endpoint_info = s.endpoint_info :=
  control_send_preserves s 2

/-- Shared helper: GET_CONFIGURATION keeps the device record, the stored
setup packet, the user_callback flag, both pending completions and the
endpoint table. -/
theorem request_get_configuration_preserves (s : State) :
    (request_get_configuration s).1.device = s.device
    ∧ (request_get_configuration s).1.transfer.setup = s.transfer.setup
    ∧ (request_get_configuration s).1.transfer.user_callback
        = s.transfer.user_callback
    ∧ (request_get_configuration s).1.pending_configuration
        = s.pending_configuration
    ∧ (request_get_configuration s).1.pending_interface = s.pending_interface
    ∧ (request_get_configuration s).1.endpoint_info = s.endpoint_info :=
  control_send_preserves s 1

/-- Shared helper: GET_INTERFACE keeps the device record, the stored setup
packet, the user_callback flag, both pending completions and the endpoint
table. -/
theorem request_get_interface_preserves (s : State) :
    (request_get_interface s).1.device = s.device
    ∧ (request_get_interface s).1.transfer.setup = s.transfer.setup
    ∧ (request_get_interface s).1.transfer.user_callback
        = s.transfer.user_callback
    ∧ (request_get_interface s).1.pending_configuration
        = s.pending_configuration
    ∧ (request_get_interface s).1.pending_interface = s.pending_interface
    ∧ (request_get_interface s).1.endpoint_info = s.endpoint_info :=
  control_send_preserves s 1

/-- Shared helper: SET_ADDRESS handling keeps the device record, the stored
setup packet, the user_callback flag, both pending completions and the
endpoint table. -/
theorem request_set_address_preserves (s : State) :
    (request_set_address s).1.device = s.device
    ∧ (request_set_address s).1.transfer.setup = s.transfer.setup
    ∧ (request_set_address s).1.transfer.user_callback
        = s.transfer.user_callback
    ∧ (request_set_address s).1.pending_configuration = s.pending_configuration
    ∧ (request_set_address s).1.pending_interface = s.pending_interface
    ∧ (request_set_address s).1.endpoint_info = s.endpoint_info := by
  unfold request_set_address
  split_ifs
  · exact ⟨rfl, rfl, rfl, rfl, rfl, rfl⟩
  · exact control_failure_preserves s
  · exact control_failure_preserves s

/-- Shared helper: SET_CONFIGURATION handling keeps the device record, the
stored setup packet, the user_callback flag, the pending interface
completion and the endpoint table. -/
theorem request_set_configuration_preserves (s : State) :
    (request_set_configuration s).1.device = s.device
    ∧ (request_set_configuration s).1.transfer.setup = s.transfer.setup
    ∧ (request_set_configuration s).1.transfer.user_callback
        = s.transfer.user_callback
    ∧ (request_set_configuration s).1.pending_interface = s.pending_interface
    ∧ (request_set_configuration s).1.endpoint_info = s.endpoint_info := by
  unfold request_set_configuration
  split_ifs
  · exact ⟨rfl, rfl, rfl, rfl, rfl⟩
  · exact ⟨(control_failure_preserves s).1, (control_failure_preserves s).2.1,
      (control_failure_preserves s).2.2.1,
      (control_failure_preserves s).2.2.2.2.1,
      (control_failure_preserves s).2.2.2.2.2⟩

/-- Shared helper: SET_INTERFACE handling keeps the device record, the
stored setup packet, the user_callback flag, the pending configuration
completion and the endpoint table. -/
theorem request_set_interface_preserves (s : State) :
    (request_set_interface s).1.device = s.device
    ∧ (request_set_interface s).1.transfer.setup = s.transfer.setup
    ∧ (request_set_interface s).1.transfer.user_callback
        = s.transfer.user_callback
    ∧ (request_set_interface s).1.pending_configuration
        = s.pending_configuration
    ∧ (request_set_interface s).1.endpoint_info = s.endpoint_info :=
  ⟨rfl, rfl, rfl, rfl, rfl⟩

/-- Shared helper: SET_FEATURE handling keeps the device record, the stored
setup packet, the user_callback flag and both pending completions. -/
theorem request_set_feature_preserves (s : State) :
    (request_set_feature s).1.device = s.device
    ∧ (request_set_feature s).1.transfer.setup = s.transfer.setup
    ∧ (request_set_feature s).1.transfer.user_callback
        = s.transfer.user_callback
    ∧ (request_set_feature s).1.pending_configuration = s.pending_configuration
    ∧ (request_set_feature s).1.pending_interface = s.pending_interface := by
  unfold request_set_feature
  split_ifs
  · exact ⟨rfl, rfl, rfl, rfl, rfl⟩
  · dsimp only
    obtain ⟨hd, ht, hpc, hpi⟩ := endpoint_stall_preserves_control s
      (s.transfer.setup.wIndex &&& 0xff)
    refine ⟨hd, ?_, ?_, hpc, hpi⟩
    · show (endpoint_stall s (s.transfer.setup.wIndex &&& 0xff)).2.1.transfer.setup
        = s.transfer.setup
      rw [ht]
    · show (endpoint_stall s
          (s.transfer.setup.wIndex &&& 0xff)).2.1.transfer.user_callback
        = s.transfer.user_callback
      rw [ht]
  · exact ⟨(control_failure_preserves s).1, (control_failure_preserves s).2.1,
      (control_failure_preserves s).2.2.1,
      (control_failure_preserves s).2.2.2.1,
      (control_failure_preserves s).2.2.2.2.1⟩

/-- Shared helper: CLEAR_FEATURE handling keeps the device record, the
stored setup packet, the user_callback flag and both pending completions. -/
theorem request_clear_feature_preserves (s : State) :
    (request_clear_feature s).1.device = s.device
    ∧ (request_clear_feature s).1.transfer.setup = s.transfer.setup
    ∧ (request_clear_feature s).1.transfer.user_callback
        = s.transfer.user_callback
    ∧ (request_clear_feature s).1.pending_configuration
        = s.pending_configuration
    ∧ (request_clear_feature s).1.pending_interface = s.pending_interface := by
  unfold request_clear_feature
  split_ifs
  · exact ⟨rfl, rfl, rfl, rfl, rfl⟩
  · dsimp only
    obtain ⟨hd, ht, hpc, hpi⟩ := endpoint_unstall_preserves_control s
      (s.transfer.setup.wIndex &&& 0xff)
    refine ⟨hd, ?_, ?_, hpc, hpi⟩
    · show (endpoint_unstall s (s.transfer.setup.wIndex &&& 0xff)).2.1.transfer.setup
        = s.transfer.setup
      rw [ht]
    · show (endpoint_unstall s
          (s.transfer.setup.wIndex &&& 0xff)).2.1.transfer.user_callback
        = s.transfer.user_callback
      rw [ht]
  · exact ⟨(control_failure_preserves s).1, (control_failure_preserves s).2.1,
      (control_failure_preserves s).2.2.1,
      (control_failure_preserves s).2.2.2.1,
      (control_failure_preserves s).2.2.2.2.1⟩

set_option maxHeartbeats 2000000 in
/-- Shared helper: a request the standard dispatcher resolves is handled by
one of the nine local handlers, each tagged here with its request code. -/
theorem request_setup_standard_cases (s : State) (r : State × List Action)
    (h : request_setup_standard s = some r) :
    (s.transfer.setup.bRequest = 0 ∧ r = request_get_status s)
    ∨ (s.transfer.setup.bRequest = 1 ∧ r = request_clear_feature s)
    ∨ (s.transfer.setup.bRequest = 3 ∧ r = request_set_feature s)
    ∨ (s.transfer.setup.bRequest = 5 ∧ r = request_set_address s)
    ∨ (s.transfer.setup.bRequest = 6 ∧ r = request_get_descriptor s)
    ∨ (s.transfer.setup.bRequest = 8 ∧ r = request_get_configuration s)
    ∨ (s.transfer.setup.bRequest = 9 ∧ r = request_set_configuration s)
    ∨ (s.transfer.setup.bRequest = 10 ∧ r = request_get_interface s)
    ∨ (s.transfer.setup.bRequest = 11 ∧ r = request_set_interface s) := by
  unfold request_setup_standard at h
  split_ifs at h with hT h0 h1 h3 h5 h6 h8 h9 h10 h11
  · exact Or.inl ⟨h0, (Option.some.inj h).symm⟩
  · exact Or.inr (Or.inl ⟨h1, (Option.some.inj h).symm⟩)
  · exact Or.inr (Or.inr (Or.inl ⟨h3, (Option.some.inj h).symm⟩))
  · exact Or.inr (Or.inr (Or.inr (Or.inl ⟨h5, (Option.some.inj h).symm⟩)))
  · exact Or.inr (Or.inr (Or.inr (Or.inr (Or.inl
      ⟨h6, (Option.some.inj h).symm⟩))))
  · exact Or.inr (Or.inr (Or.inr (Or.inr (Or.inr (Or.inl
      ⟨h8, (Option.some.inj h).symm⟩)))))
  · exact Or.inr (Or.inr (Or.inr (Or.inr (Or.inr (Or.inr (Or.inl
      ⟨h9, (Option.some.inj h).symm⟩))))))
  · exact Or.inr (Or.inr (Or.inr (Or.inr (Or.inr (Or.inr (Or.inr (Or.inl
      ⟨h10, (Option.some.inj h).symm⟩)))))))
  · exact Or.inr (Or.inr (Or.inr (Or.inr (Or.inr (Or.inr (Or.inr (Or.inr
      ⟨h11, (Option.some.inj h).symm⟩)))))))

/-- Shared helper: a request resolved by the standard dispatcher keeps the
device record and the stored setup packet. -/
theorem request_setup_standard_core (s : State) (r : State × List Action)
    (h : request_setup_standard s = some r) :
    r.1.device = s.device ∧ r.1.transfer.setup = s.transfer.setup := by
  rcases request_setup_standard_cases s r h with
    ⟨hb, rfl⟩ | ⟨hb, rfl⟩ | ⟨hb, rfl⟩ | ⟨hb, rfl⟩ | ⟨hb, rfl⟩ | ⟨hb, rfl⟩
    | ⟨hb, rfl⟩ | ⟨hb, rfl⟩ | ⟨hb, rfl⟩
  · exact ⟨(request_get_status_preserves s).1,
      (request_get_status_preserves s).2.1⟩
  · exact ⟨(request_clear_feature_preserves s).1,
      (request_clear_feature_preserves s).2.1⟩
  · exact ⟨(request_set_feature_preserves s).1,
      (request_set_feature_preserves s).2.1⟩
  · exact ⟨(request_set_address_preserves s).1,
      (request_set_address_preserves s).2.1⟩
  · exact ⟨(request_get_descriptor_preserves s).1,
      (request_get_descriptor_preserves s).2.1⟩
  · exact ⟨(request_get_configuration_preserves s).1,
      (request_get_configuration_preserves s).2.1⟩
  · exact ⟨(request_set_configuration_preserves s).1,
      (request_set_configuration_preserves s).2.1⟩
  · exact ⟨(request_get_interface_preserves s).1,
      (request_get_interface_preserves s).2.1⟩
  · exact ⟨(request_set_interface_preserves s).1,
      (request_set_interface_preserves s).2.1⟩

/-- Shared helper: the whole dispatcher keeps the device record and the
stored setup packet. -/
theorem request_setup_core (s : State) :
    (request_setup s).1.device = s.device
    ∧ (request_setup s).1.transfer.setup = s.transfer.setup := by
  unfold request_setup
  cases h : request_setup_standard s with
  | none => exact ⟨rfl, rfl⟩
  | some r => exact request_setup_standard_core s r h

/-- Shared helper: `endpoint_stall` never emits the data-stage completion
callback. -/
theorem no_xfer_done_endpoint_stall (s : State) (e : Nat) :
    Action.callback_request_xfer_done ∉ (endpoint_stall s e).2.2 := by
  cases hj : EP_TO_INDEX e with
  | none => simp [endpoint_stall, hj]
  | some j =>
    cases hrj : s.endpoint_info.getD j none with
    | none => simp [endpoint_stall, hj, hrj, -List.getD_eq_getElem?_getD]
    | some r => simp [endpoint_stall, hj, hrj, -List.getD_eq_getElem?_getD]

/-- Shared helper: `endpoint_unstall` never emits the data-stage completion
callback. -/
theorem no_xfer_done_endpoint_unstall (s : State) (e : Nat) :
    Action.callback_request_xfer_done ∉ (endpoint_unstall s e).2.2 := by
  cases hj : EP_TO_INDEX e with
  | none => simp [endpoint_unstall, hj]
  | some j =>
    cases hrj : s.endpoint_info.getD j none with
    | none => simp [endpoint_unstall, hj, hrj, -List.getD_eq_getElem?_getD]
    | some r => simp [endpoint_unstall, hj, hrj, -List.getD_eq_getElem?_getD]

/-- Shared helper: `control_send` never emits the data-stage completion
callback. -/
theorem no_xfer_done_control_send (s : State) (size : Nat) :
    Action.callback_request_xfer_done ∉ (control_send s size).2 := by
  unfold control_send control_failure
  split_ifs <;> simp

/-- Shared helper: `control_receive` never emits the data-stage completion
callback. -/
theorem no_xfer_done_control_receive (s : State) (size : Nat) :
    Action.callback_request_xfer_done ∉ (control_receive s size).2 := by
  unfold control_receive control_failure
  split_ifs <;> simp

/-- Shared helper: GET_DESCRIPTOR never emits the data-stage completion
callback. -/
theorem no_xfer_done_request_get_descriptor (s : State) :
    Action.callback_request_xfer_done ∉ (request_get_descriptor s).2 := by
  unfold request_get_descriptor
  cases h : s.descriptors.lookup (s.transfer.setup.wValue >>> 8) with
  | some len => exact no_xfer_done_control_send s len
  | none => simp [control_failure]

/-- Shared helper: GET_STATUS never emits the data-stage completion
callback. -/
theorem no_xfer_done_request_get_status (s : State) :
    Action.callback_request_xfer_done ∉ (request_get_status s).2 :=
  no_xfer_done_control_send s 2

/-- Shared helper: GET_CONFIGURATION never emits the data-stage completion
callback. -/
theorem no_xfer_done_request_get_configuration (s : State) :
    Action.callback_request_xfer_done ∉ (request_get_configuration s).2 :=
  no_xfer_done_control_send s 1

/-- Shared helper: GET_INTERFACE never emits the data-stage completion
callback. -/
theorem no_xfer_done_request_get_interface (s : State) :
    Action.callback_request_xfer_done ∉ (request_get_interface s).2 :=
  no_xfer_done_control_send s 1

/-- Shared helper: SET_ADDRESS handling never emits the data-stage
completion callback. -/
theorem no_xfer_done_request_set_address (s : State) :
    Action.callback_request_xfer_done ∉ (request_set_address s).2 := by
  unfold request_set_address control_failure
  split_ifs <;> simp

/-- Shared helper: SET_CONFIGURATION handling never emits the data-stage
completion callback. -/
theorem no_xfer_done_request_set_configuration (s : State) :
    Action.callback_request_xfer_done ∉ (request_set_configuration s).2 := by
  unfold request_set_configuration control_failure
  split_ifs <;> simp

/-- Shared helper: SET_INTERFACE handling never emits the data-stage
completion callback. -/
theorem no_xfer_done_request_set_interface (s : State) :
    Action.callback_request_xfer_done ∉ (request_set_interface s).2 := by
  unfold request_set_interface
  simp

/-- Shared helper: SET_FEATURE handling never emits the data-stage
completion callback. -/
theorem no_xfer_done_request_set_feature (s : State) :
    Action.callback_request_xfer_done ∉ (request_set_feature s).2 := by
  unfold request_set_feature control_success control_failure
  split_ifs
  · simp
  · intro hmem
    rw [List.mem_append] at hmem
    rcases hmem with hmem | hmem
    · exact no_xfer_done_endpoint_stall s _ hmem
    · simp at hmem
  · simp

/-- Shared helper: CLEAR_FEATURE handling never emits the data-stage
completion callback. -/
theorem no_xfer_done_request_clear_feature (s : State) :
    Action.callback_request_xfer_done ∉ (request_clear_feature s).2 := by
  unfold request_clear_feature control_success control_failure
  split_ifs
  · simp
  · intro hmem
    rw [List.mem_append] at hmem
    rcases hmem with hmem | hmem
    · exact no_xfer_done_endpoint_unstall s _ hmem
    · simp at hmem
  · simp

/-- Shared helper: no locally resolved standard request emits the
data-stage completion callback. -/
theorem no_xfer_done_request_setup_standard (s : State)
    (r : State × List Action) (h : request_setup_standard s = some r) :
    Action.callback_request_xfer_done ∉ r.2 := by
  rcases request_setup_standard_cases s r h with
    ⟨hb, rfl⟩ | ⟨hb, rfl⟩ | ⟨hb, rfl⟩ | ⟨hb, rfl⟩ | ⟨hb, rfl⟩ | ⟨hb, rfl⟩
    | ⟨hb, rfl⟩ | ⟨hb, rfl⟩ | ⟨hb, rfl⟩
  · exact no_xfer_done_request_get_status s
  · exact no_xfer_done_request_clear_feature s
  · exact no_xfer_done_request_set_feature s
  · exact no_xfer_done_request_set_address s
  · exact no_xfer_done_request_get_descriptor s
  · exact no_xfer_done_request_get_configuration s
  · exact no_xfer_done_request_set_configuration s
  · exact no_xfer_done_request_get_interface s
  · exact no_xfer_done_request_set_interface s

/-- Shared helper: the whole dispatcher never emits the data-stage
completion callback. -/
theorem no_xfer_done_request_setup (s : State) :
    Action.callback_request_xfer_done ∉ (request_setup s).2 := by
  unfold request_setup
  cases h : request_setup_standard s with
  | none => simp
  | some r => exact no_xfer_done_request_setup_standard s r h

/-- C2: a new Setup event arriving while the control transfer is in its
DataOut, DataIn or Status stage aborts the in-flight transfer: the aborted
transfer's outward completion callback (`callback_request_xfer_done`) is
never among the emitted actions, the newly decoded packet takes over the
stored context, and processing restarts from the Setup stage - the event's
whole outcome, resulting state and emitted actions alike, is identical to
processing the same packet with the in-flight transfer context fully
discarded (context cleared to `reset_transfer` and both pending
asynchronous completions dropped). -/
theorem ep0_setup_aborts_inflight_transfer (s : State) (data : List Nat)
    (h : s.transfer.stage = ControlState.DataOut
       ∨ s.transfer.stage = ControlState.DataIn
       ∨ s.transfer.stage = ControlState.Status) :
    Action.callback_request_xfer_done ∉ (step s (Op.ep0_setup data)).2
    ∧ (step s (Op.ep0_setup data)).1.transfer.setup = decode_setup_packet data
    ∧ step s (Op.ep0_setup data)
        = step { s with transfer := reset_transfer
                        pending_configuration := none
                        pending_interface := none } (Op.ep0_setup data) := by
  refine ⟨?_, ?_, ?_⟩
  · show Action.callback_request_xfer_done ∉
      (request_setup
        { s with transfer := control_setup (decode_setup_packet data)
                 pending_configuration := none
                 pending_interface := none }).2
    exact no_xfer_done_request_setup _
  · show (request_setup
        { s with transfer := control_setup (decode_setup_packet data)
                 pending_configuration := none
                 pending_interface := none }).1.transfer.setup
      = decode_setup_packet data
    exact (request_setup_core _).2
  · rfl

/-- C2 witness: with a GET_DESCRIPTOR transfer mid-flight in the DataIn
stage, a freshly arriving SET_ADDRESS(5) setup packet is taken up without
the old transfer's completion callback firing. -/
theorem ep0_setup_aborts_inflight_transfer_witness :
    Action.callback_request_xfer_done ∉
      (step
        { initState 64 with
            device := { state := DeviceState.Default, configuration := 0,
                        suspended := false }
            transfer :=
              { setup := { bmRequestType :=
                             { dataTransferDirection := 1, Type_ := 0, Recipient := 0 }
                           bRequest := 6, wValue := 256, wIndex := 0, wLength := 18 }
                ptr := 0, remaining := 12, direction := 1, zlp := false,
                notify := true, stage := ControlState.DataIn, user_callback := true } }
        (Op.ep0_setup [0, 5, 5, 0, 0, 0, 0, 0])).2 := by
  exact (ep0_setup_aborts_inflight_transfer _ _ (by right; left; rfl)).1

/-- C7: `complete_request` with result Success ends the transfer by issuing
the zero-length status-stage ACK and moving to the Status stage, and with
result Failure ends it by issuing a protocol STALL on endpoint 0 and
returning the stage machine to Setup; after such a Failure the machine can
take up a fresh Setup packet: any subsequent setup event stores the newly
decoded packet and behaves exactly - same state, same actions - as if it
were processed on a fully cleared control context. -/
theorem complete_request_success_ack_failure_stall (s : State) (size : Nat) :
    (complete_request s RequestResult.Success size).2 = [Action.phy_ep0_write 0]
    ∧ (complete_request s RequestResult.Success size).1.transfer.stage
        = ControlState.Status
    ∧ (complete_request s RequestResult.Failure size).2 = [Action.phy_ep0_stall]
    ∧ (complete_request s RequestResult.Failure size).1.transfer.stage
        = ControlState.Setup
    ∧ (∀ data,
        (step (complete_request s RequestResult.Failure size).1
            (Op.ep0_setup data)).1.transfer.setup = decode_setup_packet data
        ∧ step (complete_request s RequestResult.Failure size).1
              (Op.ep0_setup data)
          = step { (complete_request s RequestResult.Failure size).1 with
                     transfer := reset_transfer
                     pending_configuration := none
                     pending_interface := none } (Op.ep0_setup data)) := by
  refine ⟨rfl, rfl, rfl, rfl, fun data => ⟨?_, rfl⟩⟩
  show (request_setup
      { (complete_request s RequestResult.Failure size).1 with
          transfer := control_setup (decode_setup_packet data)
          pending_configuration := none
          pending_interface := none }).1.transfer.setup
    = decode_setup_packet data
  exact (request_setup_core _).2

/-- The decoded form of the SET_ADDRESS(A) setup packet
`00 05 lo hi 00 00 00 00`. -/
def set_address_packet (A : Nat) : setup_packet_t :=
  { bmRequestType := { dataTransferDirection := 0, Type_ := 0, Recipient := 0 }
    bRequest := 5
    wValue := A
    wIndex := 0
    wLength := 0 }

/-- C6: a SET_ADDRESS request with value A (raw packet 00 05 lo hi 00 00 00
00) latches the address - it stays in the setup packet's wValue - but does
not apply it to the physical layer while the request is processed: no
phy_set_address command is emitted and the device still answers at address
0 during the Status stage of this same request.  Only when that Status
stage completes (the ep0 IN event) is the address applied, and with a
non-zero A the lifecycle state then becomes Address. -/
theorem set_address_applied_at_status_completion (s : State) (A : Nat)
    (hst : s.device.state = DeviceState.Default)
    (haddr : s.phy_address = 0) :
    (step s (Op.ep0_setup [0, 5, A % 256, A / 256, 0, 0, 0, 0])).1.phy_address = 0
    ∧ (∀ a, Action.phy_set_address a ∉
        (step s (Op.ep0_setup [0, 5, A % 256, A / 256, 0, 0, 0, 0])).2)
    ∧ (step s (Op.ep0_setup [0, 5, A % 256, A / 256, 0, 0, 0, 0])).1.transfer.setup.wValue = A
    ∧ (step s (Op.ep0_setup [0, 5, A % 256, A / 256, 0, 0, 0, 0])).1.transfer.stage
        = ControlState.Status
    ∧ (step (step s (Op.ep0_setup [0, 5, A % 256, A / 256, 0, 0, 0, 0])).1
        Op.ep0_in).1.phy_address = A
    ∧ Action.phy_set_address A ∈
        (step (step s (Op.ep0_setup [0, 5, A % 256, A / 256, 0, 0, 0, 0])).1
          Op.ep0_in).2
    ∧ (A ≠ 0 →
        (step (step s (Op.ep0_setup [0, 5, A % 256, A / 256, 0, 0, 0, 0])).1
          Op.ep0_in).1.device.state = DeviceState.Address) := by
  have hval : (A % 256) ||| ((A / 256) <<< 8) = A := by
    rw [lor_shiftLeft_eq_add 8 _ _ (by omega)]
    omega
  have hdec : decode_setup_packet [0, 5, A % 256, A / 256, 0, 0, 0, 0]
      = set_address_packet A := by
    simp only [decode_setup_packet, List.getD_cons_zero, List.getD_cons_succ]
    rw [hval]
    rfl
  have hsa : is_set_address (set_address_packet A) = true := rfl
  have hr1 : step s (Op.ep0_setup [0, 5, A % 256, A / 256, 0, 0, 0, 0]) =
      ({ s with
          transfer := control_setup (set_address_packet A)
          pending_configuration := none
          pending_interface := none }, []) := by
    show ep0_setup s _ = _
    unfold ep0_setup request_setup request_setup_standard request_set_address
    rw [hdec]
    dsimp only
    rw [show (control_setup (set_address_packet A)).setup = set_address_packet A from rfl]
    simp only [set_address_packet]
    simp [hst]
  have hstage : (step s (Op.ep0_setup [0, 5, A % 256, A / 256, 0, 0, 0, 0])).1.transfer.stage
      = ControlState.Status := by
    rw [hr1]
    rfl
  have hsetup : (step s (Op.ep0_setup [0, 5, A % 256, A / 256, 0, 0, 0, 0])).1.transfer.setup
      = set_address_packet A := by
    rw [hr1]
    rfl
  have hin : step (step s (Op.ep0_setup [0, 5, A % 256, A / 256, 0, 0, 0, 0])).1 Op.ep0_in
      = (let s1 := (step s (Op.ep0_setup [0, 5, A % 256, A / 256, 0, 0, 0, 0])).1
         let r := change_state
           { s1 with transfer := { s1.transfer with stage := ControlState.Setup }
                     phy_address := A }
           (if A ≠ 0 then DeviceState.Address else s1.device.state)
         (r.1, Action.phy_set_address A :: r.2)) := by
    show ep0_in _ = _
    unfold ep0_in
    rw [hstage, hsetup]
    dsimp only
    rw [hsa]
    simp only [set_address_packet]
    rfl
  refine ⟨by rw [hr1]; exact haddr, by rw [hr1]; simp, by rw [hsetup]; rfl, hstage, ?_, ?_, ?_⟩
  · rw [hin]
    dsimp only
    rw [(change_state_preserves _ _).2.2.1]
  · rw [hin]
    dsimp only
    exact List.mem_cons_self _ _
  · intro hA
    rw [hin]
    dsimp only
    rw [if_pos hA]
    exact change_state_sets_state _ _

/-- C6 witness: SET_ADDRESS(5) from Default - during the request the device
still answers at address 0, and after Status-stage completion the physical
layer is set to address 5 and the lifecycle state is Address. -/
theorem set_address_applied_at_status_completion_witness :
    ((step
        { initState 64 with
            device := { state := DeviceState.Default, configuration := 0,
                        suspended := false } }
        (Op.ep0_setup [0, 5, 5, 0, 0, 0, 0, 0])).1.phy_address = 0)
    ∧ ((step (step
        { initState 64 with
            device := { state := DeviceState.Default, configuration := 0,
                        suspended := false } }
        (Op.ep0_setup [0, 5, 5, 0, 0, 0, 0, 0])).1 Op.ep0_in).1.device.state
        = DeviceState.Address) := by
  have h := set_address_applied_at_status_completion
    { initState 64 with
        device := { state := DeviceState.Default, configuration := 0,
                    suspended := false } }
    5 rfl rfl
  exact ⟨h.1, h.2.2.2.2.2.2 (by decide)⟩

/-- C8: `endpoint_add` fails - returning false - when the endpoint is
already registered (its direct-mapped slot in the 30-entry table is taken,
and in particular an immediate duplicate add of the same endpoint fails),
and when the 30-entry table is at capacity (every slot holds a record); and
every failing add leaves the endpoint table unchanged (no partial state). -/
theorem endpoint_add_failure_modes (s : State) (e m m' : Nat)
    (ty ty' : usb_ep_type_t) (cb cb' : Option Nat)
    (hlen : s.endpoint_info.length = 30) :
    ((∃ i r, EP_TO_INDEX e = some i ∧ s.endpoint_info.getD i none = some r) →
        (endpoint_add s e m ty cb).1 = false)
    ∧ ((∀ i, i < 30 → s.endpoint_info.getD i none ≠ none) →
        (endpoint_add s e m ty cb).1 = false)
    ∧ ((endpoint_add s e m ty cb).1 = false →
        (endpoint_add s e m ty cb).2.1 = s)
    ∧ ((endpoint_add s e m ty cb).1 = true →
        (endpoint_add (endpoint_add s e m ty cb).2.1 e m' ty' cb').1 = false) := by
  refine ⟨?_, ?_, ?_, ?_⟩
  · rintro ⟨i, r, hi, hr⟩
    simp [endpoint_add, hi, hr, -List.getD_eq_getElem?_getD]
  · intro hfull
    cases hi : EP_TO_INDEX e with
    | none => simp [endpoint_add, hi, -List.getD_eq_getElem?_getD]
    | some i =>
      have hlt : i < 30 := EP_TO_INDEX_lt e i hi
      cases hr : s.endpoint_info.getD i none with
      | none => exact absurd hr (hfull i hlt)
      | some r => simp [endpoint_add, hi, hr, -List.getD_eq_getElem?_getD]
  · intro hf
    cases hi : EP_TO_INDEX e with
    | none => simp [endpoint_add, hi, -List.getD_eq_getElem?_getD]
    | some i =>
      cases hr : s.endpoint_info.getD i none with
      | none => simp [endpoint_add, hi, hr, -List.getD_eq_getElem?_getD] at hf
      | some r => simp [endpoint_add, hi, hr, -List.getD_eq_getElem?_getD]
  · intro ht
    cases hi : EP_TO_INDEX e with
    | none => simp [endpoint_add, hi, -List.getD_eq_getElem?_getD] at ht
    | some i =>
      cases hr : s.endpoint_info.getD i none with
      | some r => simp [endpoint_add, hi, hr, -List.getD_eq_getElem?_getD] at ht
      | none =>
        have hlt : i < s.endpoint_info.length := by
          rw [hlen]
          exact EP_TO_INDEX_lt e i hi
        have hdup : (endpoint_add s e m ty cb).2.1.endpoint_info.getD i none ≠ none := by
          simp only [endpoint_add, hi, hr]
          rw [List.getD_eq_getElem?_getD, List.getElem?_set_self hlt]
          simp
        cases hr2 : (endpoint_add s e m ty cb).2.1.endpoint_info.getD i none with
        | none => exact absurd hr2 hdup
        | some r2 =>
          generalize hgen : (endpoint_add s e m ty cb).2.1 = s2 at hr2 ⊢
          simp [endpoint_add, hi, hr2, -List.getD_eq_getElem?_getD]

/-- C8 witness: endpoint_add(EP1_IN, 64, Bulk) on a fresh device succeeds,
and an immediate second endpoint_add(EP1_IN, 64, Bulk) returns false. -/
theorem endpoint_add_failure_modes_witness :
    (endpoint_add (initState 64) 0x81 64 usb_ep_type_t.USB_EP_TYPE_BULK none).1 = true
    ∧ (endpoint_add
        (endpoint_add (initState 64) 0x81 64 usb_ep_type_t.USB_EP_TYPE_BULK none).2.1
        0x81 64 usb_ep_type_t.USB_EP_TYPE_BULK none).1 = false := by
  refine ⟨by decide, ?_⟩
  exact (endpoint_add_failure_modes (initState 64) 0x81 64 64
    usb_ep_type_t.USB_EP_TYPE_BULK usb_ep_type_t.USB_EP_TYPE_BULK none none
    (by decide)).2.2.2 (by decide)

/-- C10 as stated is false: the header's record field `max_packet_size` is a
`uint16_t`, so the `uint32_t` argument 65600 passed to a successful
endpoint_add(EP1_IN, 65600, Bulk) is truncated and
endpoint_max_packet_size(EP1_IN) afterwards returns 65600 mod 2^16 = 64,
not 65600. -/
theorem endpoint_max_packet_size_truncation_counterexample :
    (endpoint_add (initState 64) 0x81 65600 usb_ep_type_t.USB_EP_TYPE_BULK none).1 = true
    ∧ endpoint_max_packet_size
        (endpoint_add (initState 64) 0x81 65600 usb_ep_type_t.USB_EP_TYPE_BULK none).2.1
        0x81 = 64
    ∧ (64 : Nat) ≠ 65600 := by
  refine ⟨by decide, by decide, by decide⟩

/-- Whether the operation removes the endpoint occupying the same table
slot as `e`. -/
def removes_endpoint (e : Nat) : Op → Bool
  | Op.endpoint_remove e' => EP_TO_INDEX e' == EP_TO_INDEX e
  | _ => false

/-- Run a sequence of operations on the device, keeping only the state. -/
def run (s : State) : List Op → State
  | [] => s
  | op :: ops => run (step s op).1 ops

/-- Shared helper: the ep0 IN event never touches the endpoint table. -/
theorem ep0_in_preserves_endpoint_info (s : State) :
    (ep0_in s).1.endpoint_info = s.endpoint_info := by
  unfold ep0_in
  cases hst : s.transfer.stage with
  | Setup => rfl
  | DataOut => rfl
  | DataIn =>
    cases hc : control_in s.max_packet_size_ep0 s.transfer with
    | none => rfl
    | some v => rfl
  | Status =>
    dsimp only
    split_ifs <;>
      first
      | rw [(change_state_preserves _ _).1]
      | rfl

/-- Shared helper: the ep0 OUT event never touches the endpoint table. -/
theorem ep0_out_preserves_endpoint_info (s : State) :
    (ep0_out s).1.endpoint_info = s.endpoint_info := by
  unfold ep0_out
  cases hst : s.transfer.stage with
  | Setup => rfl
  | DataOut =>
    dsimp only
    split_ifs <;> rfl
  | DataIn => rfl
  | Status => rfl

/-- Shared helper: `change_state` keeps the endpoint table. -/
theorem change_state_endpoint_info (s : State) (t : DeviceState) :
    (change_state s t).1.endpoint_info = s.endpoint_info :=
  (change_state_preserves s t).1

/-- Shared helper: `complete_set_configuration` never touches the endpoint
table. -/
theorem complete_set_configuration_preserves_endpoint_info (s : State)
    (success : Bool) :
    (complete_set_configuration s success).1.endpoint_info = s.endpoint_info := by
  unfold complete_set_configuration
  cases hp : s.pending_configuration with
  | none => rfl
  | some c =>
    dsimp only
    split_ifs <;>
      simp only [(control_success_preserves _).2.2.2.2.2,
        (control_failure_preserves _).2.2.2.2.2, change_state_endpoint_info]

/-- Shared helper: `complete_set_interface` never touches the endpoint
table. -/
theorem complete_set_interface_preserves_endpoint_info (s : State)
    (success : Bool) :
    (complete_set_interface s success).1.endpoint_info = s.endpoint_info := by
  unfold complete_set_interface
  cases hp : s.pending_interface with
  | none => rfl
  | some p =>
    dsimp only
    split_ifs <;>
      simp only [(control_success_preserves _).2.2.2.2.2,
        (control_failure_preserves _).2.2.2.2.2]

/-- Shared helper: writing a different slot leaves a table entry alone. -/
theorem getD_set_other (l : List (Option endpoint_info_t)) (i j : Nat)
    (v : Option endpoint_info_t) (hij : j ≠ i) :
    (l.set j v).getD i none = l.getD i none := by
  rw [List.getD_eq_getElem?_getD, List.getD_eq_getElem?_getD,
    List.getElem?_set_ne hij]

/-- Shared helper: a populated slot index is inside the table. -/
theorem lt_length_of_getD_some (l : List (Option endpoint_info_t)) (i : Nat)
    (r : endpoint_info_t) (h : l.getD i none = some r) : i < l.length := by
  by_contra hge
  rw [List.getD_eq_getElem?_getD, List.getElem?_eq_none (by omega)] at h
  simp at h

/-- The rewritten endpoint table keeps every registered record, each with
its stored max packet size unchanged (the slot's flag or pending byte may
differ). -/
def table_mps_preserved (l l' : List (Option endpoint_info_t)) : Prop :=
  ∀ i r, l.getD i none = some r →
    ∃ r', l'.getD i none = some r' ∧ r'.max_packet_size = r.max_packet_size

/-- Shared helper: the unchanged table trivially preserves records. -/
theorem table_mps_refl (l : List (Option endpoint_info_t)) :
    table_mps_preserved l l :=
  fun _ r h => ⟨r, h, rfl⟩

/-- Shared helper: a table equal to the original preserves records. -/
theorem table_mps_of_eq (l l' : List (Option endpoint_info_t)) (h : l' = l) :
    table_mps_preserved l l' :=
  fun _ r hr => ⟨r, by rw [h]; exact hr, rfl⟩

/-- Shared helper: `endpoint_stall` only flips a flag bit - every record
and its max packet size survive. -/
theorem endpoint_stall_table_mps (s : State) (e : Nat) :
    table_mps_preserved s.endpoint_info (endpoint_stall s e).2.1.endpoint_info := by
  intro i r hr
  have hilen : i < s.endpoint_info.length := lt_length_of_getD_some _ _ _ hr
  cases hj : EP_TO_INDEX e with
  | none => exact ⟨r, by simp [endpoint_stall, hj, hr, -List.getD_eq_getElem?_getD], rfl⟩
  | some j =>
    cases hrj : s.endpoint_info.getD j none with
    | none => exact ⟨r, by simp [endpoint_stall, hj, hrj, hr, -List.getD_eq_getElem?_getD], rfl⟩
    | some rj =>
      by_cases hij : j = i
      · subst hij
        rw [hr] at hrj
        cases hrj
        refine ⟨{ r with flags := r.flags ||| 16 }, ?_, rfl⟩
        simp only [endpoint_stall, hj]
        rw [hr]
        rw [List.getD_eq_getElem?_getD, List.getElem?_set_self hilen]
        rfl
      · refine ⟨r, ?_, rfl⟩
        simp only [endpoint_stall, hj, hrj]
        rw [getD_set_other _ _ _ _ hij]
        exact hr

/-- Shared helper: `endpoint_unstall` only clears flag bits and the pending
count - every record and its max packet size survive. -/
theorem endpoint_unstall_table_mps (s : State) (e : Nat) :
    table_mps_preserved s.endpoint_info (endpoint_unstall s e).2.1.endpoint_info := by
  intro i r hr
  have hilen : i < s.endpoint_info.length := lt_length_of_getD_some _ _ _ hr
  cases hj : EP_TO_INDEX e with
  | none => exact ⟨r, by simp [endpoint_unstall, hj, hr, -List.getD_eq_getElem?_getD], rfl⟩
  | some j =>
    cases hrj : s.endpoint_info.getD j none with
    | none => exact ⟨r, by simp [endpoint_unstall, hj, hrj, hr, -List.getD_eq_getElem?_getD], rfl⟩
    | some rj =>
      by_cases hij : j = i
      · subst hij
        rw [hr] at hrj
        cases hrj
        refine ⟨{ r with flags := r.flags &&& 15, pending := 0 }, ?_, rfl⟩
        simp only [endpoint_unstall, hj]
        rw [hr]
        rw [List.getD_eq_getElem?_getD, List.getElem?_set_self hilen]
        rfl
      · refine ⟨r, ?_, rfl⟩
        simp only [endpoint_unstall, hj, hrj]
        rw [getD_set_other _ _ _ _ hij]
        exact hr

/-- Shared helper: SET_FEATURE keeps every registered record's max packet
size (the endpoint branch only sets the halt flag). -/
theorem request_set_feature_table_mps (s : State) :
    table_mps_preserved s.endpoint_info (request_set_feature s).1.endpoint_info := by
  unfold request_set_feature
  split_ifs
  · exact table_mps_refl _
  · dsimp only
    exact endpoint_stall_table_mps s _
  · exact table_mps_refl _

/-- Shared helper: CLEAR_FEATURE keeps every registered record's max packet
size (the endpoint branch only clears the halt flag and pending count). -/
theorem request_clear_feature_table_mps (s : State) :
    table_mps_preserved s.endpoint_info (request_clear_feature s).1.endpoint_info := by
  unfold request_clear_feature
  split_ifs
  · exact table_mps_refl _
  · dsimp only
    exact endpoint_unstall_table_mps s _
  · exact table_mps_refl _

/-- Shared helper: every locally resolved standard request keeps every
registered record's max packet size. -/
theorem request_setup_standard_table_mps (s : State) (r : State × List Action)
    (h : request_setup_standard s = some r) :
    table_mps_preserved s.endpoint_info r.1.endpoint_info := by
  rcases request_setup_standard_cases s r h with
    ⟨hb, rfl⟩ | ⟨hb, rfl⟩ | ⟨hb, rfl⟩ | ⟨hb, rfl⟩ | ⟨hb, rfl⟩ | ⟨hb, rfl⟩
    | ⟨hb, rfl⟩ | ⟨hb, rfl⟩ | ⟨hb, rfl⟩
  · exact table_mps_of_eq _ _ (request_get_status_preserves s).2.2.2.2.2
  · exact request_clear_feature_table_mps s
  · exact request_set_feature_table_mps s
  · exact table_mps_of_eq _ _ (request_set_address_preserves s).2.2.2.2.2
  · exact table_mps_of_eq _ _ (request_get_descriptor_preserves s).2.2.2.2.2
  · exact table_mps_of_eq _ _ (request_get_configuration_preserves s).2.2.2.2.2
  · exact table_mps_of_eq _ _ (request_set_configuration_preserves s).2.2.2.2
  · exact table_mps_of_eq _ _ (request_get_interface_preserves s).2.2.2.2.2
  · exact table_mps_of_eq _ _ (request_set_interface_preserves s).2.2.2.2

/-- Shared helper: the whole dispatcher keeps every registered record's max
packet size. -/
theorem request_setup_table_mps (s : State) :
    table_mps_preserved s.endpoint_info (request_setup s).1.endpoint_info := by
  unfold request_setup
  cases h : request_setup_standard s with
  | none => exact table_mps_refl _
  | some r => exact request_setup_standard_table_mps s r h

/-- Shared helper: `complete_request` keeps every registered record's max
packet size. -/
theorem complete_request_table_mps (s : State) (result : RequestResult)
    (size : Nat) :
    table_mps_preserved s.endpoint_info
      (complete_request s result size).1.endpoint_info := by
  cases result with
  | Send => exact table_mps_of_eq _ _ (control_send_preserves s size).2.2.2.2.2
  | Receive => exact table_mps_of_eq _ _ (control_receive_preserves s size).2.2.2.2.2
  | Success => exact table_mps_refl _
  | Failure => exact table_mps_refl _
  | PassThrough =>
    unfold complete_request
    dsimp only
    cases h : request_setup_standard s with
    | none => exact table_mps_refl _
    | some r => exact request_setup_standard_table_mps s r h

/-- Shared helper: one operation that is not an `endpoint_remove` aimed at
`e`'s slot keeps `e`'s record and its stored max packet size. -/
theorem step_preserves_record_mps (s : State) (op : Op) (e i : Nat)
    (r : endpoint_info_t)
    (hi : EP_TO_INDEX e = some i)
    (hop : removes_endpoint e op = false)
    (hr : s.endpoint_info.getD i none = some r) :
    ∃ r', (step s op).1.endpoint_info.getD i none = some r'
      ∧ r'.max_packet_size = r.max_packet_size := by
  have hilen : i < s.endpoint_info.length := lt_length_of_getD_some _ _ _ hr
  cases op with
  | power powered => exact ⟨r, hr, rfl⟩
  | suspend suspended => exact ⟨r, hr, rfl⟩
  | sof frame => exact ⟨r, hr, rfl⟩
  | reset =>
    refine ⟨{ r with pending := 0 }, ?_, rfl⟩
    show ((reset s).1.endpoint_info).getD i none = _
    unfold reset
    dsimp only
    rw [(change_state_preserves _ _).1]
    dsimp only
    rw [List.getD_eq_getElem?_getD, List.getElem?_map]
    rw [List.getD_eq_getElem?_getD] at hr
    cases hx : s.endpoint_info[i]? with
    | none => rw [hx] at hr; simp at hr
    | some v =>
      rw [hx] at hr
      simp only [Option.getD_some] at hr
      subst hr
      rfl
  | ep0_setup data =>
    exact request_setup_table_mps
      { s with transfer := control_setup (decode_setup_packet data)
               pending_configuration := none
               pending_interface := none } i r hr
  | ep0_in =>
    refine ⟨r, ?_, rfl⟩
    show ((ep0_in s).1.endpoint_info).getD i none = _
    rw [ep0_in_preserves_endpoint_info]
    exact hr
  | ep0_out =>
    refine ⟨r, ?_, rfl⟩
    show ((ep0_out s).1.endpoint_info).getD i none = _
    rw [ep0_out_preserves_endpoint_info]
    exact hr
  | complete_request result size =>
    show ∃ r', (if s.transfer.user_callback then complete_request s result size
      else (s, [])).1.endpoint_info.getD i none = some r'
      ∧ r'.max_packet_size = r.max_packet_size
    split_ifs
    · exact complete_request_table_mps s result size i r hr
    · exact ⟨r, hr, rfl⟩
  | complete_set_configuration success =>
    refine ⟨r, ?_, rfl⟩
    show ((complete_set_configuration s success).1.endpoint_info).getD i none = _
    rw [complete_set_configuration_preserves_endpoint_info]
    exact hr
  | complete_set_interface success =>
    refine ⟨r, ?_, rfl⟩
    show ((complete_set_interface s success).1.endpoint_info).getD i none = _
    rw [complete_set_interface_preserves_endpoint_info]
    exact hr
  | endpoint_add e' m' ty' cb' =>
    refine ⟨r, ?_, rfl⟩
    show ((endpoint_add s e' m' ty' cb').2.1.endpoint_info).getD i none = _
    cases hj : EP_TO_INDEX e' with
    | none => simp [endpoint_add, hj, hr, -List.getD_eq_getElem?_getD]
    | some j =>
      cases hrj : s.endpoint_info.getD j none with
      | some rj => simp [endpoint_add, hj, hrj, hr, -List.getD_eq_getElem?_getD]
      | none =>
        have hij : j ≠ i := by
          intro hcontra
          rw [hcontra, hr] at hrj
          exact Option.noConfusion hrj
        simp only [endpoint_add, hj, hrj]
        rw [getD_set_other _ _ _ _ hij]
        exact hr
  | endpoint_remove e' =>
    refine ⟨r, ?_, rfl⟩
    show ((endpoint_remove s e').2.1.endpoint_info).getD i none = _
    cases hj : EP_TO_INDEX e' with
    | none => simp [endpoint_remove, hj, hr, -List.getD_eq_getElem?_getD]
    | some j =>
      cases hrj : s.endpoint_info.getD j none with
      | none => simp [endpoint_remove, hj, hrj, hr, -List.getD_eq_getElem?_getD]
      | some rj =>
        have hij : j ≠ i := by
          intro hcontra
          subst hcontra
          rw [removes_endpoint, hj, hi] at hop
          simp at hop
        simp only [endpoint_remove, hj, hrj]
        rw [getD_set_other _ _ _ _ hij]
        exact hr
  | endpoint_stall e' =>
    exact endpoint_stall_table_mps s e' i r hr
  | endpoint_unstall e' =>
    exact endpoint_unstall_table_mps s e' i r hr
  | read_start e' =>
    show ∃ r', (((read_start s e').2).endpoint_info).getD i none = some r'
      ∧ r'.max_packet_size = r.max_packet_size
    cases hj : EP_TO_INDEX e' with
    | none => exact ⟨r, by simp [read_start, hj, hr, -List.getD_eq_getElem?_getD], rfl⟩
    | some j =>
      cases hrj : s.endpoint_info.getD j none with
      | none => exact ⟨r, by simp [read_start, hj, hrj, hr, -List.getD_eq_getElem?_getD], rfl⟩
      | some rj =>
        by_cases hp : rj.pending ≠ 0
        · exact ⟨r, by simp [read_start, hj, hrj, hp, hr, -List.getD_eq_getElem?_getD], rfl⟩
        · by_cases hij : j = i
          · subst hij
            rw [hr] at hrj
            cases hrj
            refine ⟨{ r with pending := r.pending + 1 }, ?_, rfl⟩
            simp only [read_start, hj, hr, hp, if_false]
            rw [List.getD_eq_getElem?_getD, List.getElem?_set_self hilen]
            rfl
          · refine ⟨r, ?_, rfl⟩
            simp only [read_start, hj, hrj, hp, if_false]
            rw [getD_set_other _ _ _ _ hij]
            exact hr
  | write e' size =>
    show ∃ r', (((write s e' size).2).endpoint_info).getD i none = some r'
      ∧ r'.max_packet_size = r.max_packet_size
    cases hj : EP_TO_INDEX e' with
    | none => exact ⟨r, by simp [write, hj, hr, -List.getD_eq_getElem?_getD], rfl⟩
    | some j =>
      cases hrj : s.endpoint_info.getD j none with
      | none => exact ⟨r, by simp [write, hj, hrj, hr, -List.getD_eq_getElem?_getD], rfl⟩
      | some rj =>
        by_cases hp : size > rj.max_packet_size ∨ rj.pending ≠ 0
        · exact ⟨r, by simp [write, hj, hrj, hp, hr, -List.getD_eq_getElem?_getD], rfl⟩
        · by_cases hij : j = i
          · subst hij
            rw [hr] at hrj
            cases hrj
            refine ⟨{ r with pending := r.pending + 1 }, ?_, rfl⟩
            simp only [write, hj, hr, hp, if_false]
            rw [List.getD_eq_getElem?_getD, List.getElem?_set_self hilen]
            rfl
          · refine ⟨r, ?_, rfl⟩
            simp only [write, hj, hrj, hp, if_false]
            rw [getD_set_other _ _ _ _ hij]
            exact hr

/-- Shared helper: a whole run of operations, none of which removes `e`'s
slot, keeps `e`'s record and its stored max packet size. -/
theorem run_preserves_record_mps (e i : Nat) (hi : EP_TO_INDEX e = some i) :
    ∀ (ops : List Op) (s : State) (r : endpoint_info_t),
      (∀ op ∈ ops, removes_endpoint e op = false) →
      s.endpoint_info.getD i none = some r →
      ∃ r', (run s ops).endpoint_info.getD i none = some r'
        ∧ r'.max_packet_size = r.max_packet_size := by
  intro ops
  induction ops with
  | nil => exact fun s r _ hr => ⟨r, hr, rfl⟩
  | cons op ops ih =>
    intro s r hops hr
    obtain ⟨r1, hr1, hmps1⟩ := step_preserves_record_mps s op e i r hi
      (hops op (List.mem_cons_self op ops)) hr
    obtain ⟨r2, hr2, hmps2⟩ := ih (step s op).1 r1
      (fun o ho => hops o (List.mem_cons_of_mem op ho)) hr1
    exact ⟨r2, hr2, by rw [hmps2, hmps1]⟩

/-- C10 amended: for every non-control endpoint `e` and value `m` accepted
by a successful endpoint_add(e, m, type, callback),
endpoint_max_packet_size(e) returns `m` reduced mod 2^16 - the header's
`uint16_t` record field truncates the `uint32_t` argument - at every point
between that add and the matching endpoint_remove(e); in particular it
returns exactly `m` whenever `m < 65536`. -/
theorem endpoint_max_packet_size_between_add_remove
    (s : State) (e m : Nat) (ty : usb_ep_type_t) (cb : Option Nat)
    (ops : List Op)
    (hlen : s.endpoint_info.length = 30)
    (hadd : (endpoint_add s e m ty cb).1 = true)
    (hops : ∀ op ∈ ops, removes_endpoint e op = false) :
    endpoint_max_packet_size (run (endpoint_add s e m ty cb).2.1 ops) e
      = m % 65536
    ∧ (m < 65536 →
        endpoint_max_packet_size (run (endpoint_add s e m ty cb).2.1 ops) e = m) := by
  cases hi : EP_TO_INDEX e with
  | none => simp [endpoint_add, hi, -List.getD_eq_getElem?_getD] at hadd
  | some i =>
    cases hr : s.endpoint_info.getD i none with
    | some r => simp [endpoint_add, hi, hr, -List.getD_eq_getElem?_getD] at hadd
    | none =>
      have hilen : i < s.endpoint_info.length := by
        rw [hlen]
        exact EP_TO_INDEX_lt e i hi
      have hstored : (endpoint_add s e m ty cb).2.1.endpoint_info.getD i none
          = some { callback := cb, max_packet_size := m % 65536
                   flags := ep_type_flags ty, pending := 0 } := by
        simp only [endpoint_add, hi, hr]
        rw [List.getD_eq_getElem?_getD, List.getElem?_set_self hilen]
        rfl
      obtain ⟨r', hr', hmps⟩ := run_preserves_record_mps e i hi ops
        (endpoint_add s e m ty cb).2.1 _ hops hstored
      have hres : endpoint_max_packet_size (run (endpoint_add s e m ty cb).2.1 ops) e
          = m % 65536 := by
        simp only [endpoint_max_packet_size, hi, hr', hmps]
      exact ⟨hres, fun hm => by rw [hres]; omega⟩

/-- C10 amended witness: after endpoint_add(EP1_IN, 64, Bulk) and a run of
stall, bus reset and read_start operations that never remove EP1_IN,
endpoint_max_packet_size(EP1_IN) still returns 64. -/
theorem endpoint_max_packet_size_between_add_remove_witness :
    endpoint_max_packet_size
      (run (endpoint_add (initState 64) 0x81 64 usb_ep_type_t.USB_EP_TYPE_BULK none).2.1
        [Op.endpoint_stall 0x81, Op.reset, Op.read_start 0x81, Op.endpoint_remove 0x02])
      0x81 = 64 := by
  have h := endpoint_max_packet_size_between_add_remove (initState 64) 0x81 64
    usb_ep_type_t.USB_EP_TYPE_BULK none
    [Op.endpoint_stall 0x81, Op.reset, Op.read_start 0x81, Op.endpoint_remove 0x02]
    (by decide) (by decide) (by decide)
  exact h.2 (by decide)

/-- Inductive invariant behind C4: `Configured` holds exactly for a non-zero
latched configuration, and a latched SET_ADDRESS request is never
simultaneously a collaborator-deferred request, never coexists with a
pending asynchronous SET_CONFIGURATION or SET_INTERFACE, and never
progresses past the Setup stage while the device is Configured (the
dispatcher only accepts SET_ADDRESS in Default or Address). -/
def ConfigInv (s : State) : Prop :=
  (s.device.state = DeviceState.Configured ↔ s.device.configuration ≠ 0)
  ∧ (is_set_address s.transfer.setup = true →
      s.transfer.user_callback = false
      ∧ s.pending_configuration = none
      ∧ s.pending_interface = none
      ∧ (s.transfer.stage ≠ ControlState.Setup →
          s.device.state ≠ DeviceState.Configured))

/-- Shared helper: a state agreeing with `s` on device, transfer and both
pending completions inherits the invariant. -/
theorem configInv_of_control_eq (s X : State)
    (hd : X.device = s.device) (ht : X.transfer = s.transfer)
    (hp : X.pending_configuration = s.pending_configuration)
    (hpi : X.pending_interface = s.pending_interface)
    (ih : ConfigInv s) : ConfigInv X := by
  obtain ⟨hiff, hsa⟩ := ih
  refine ⟨by rw [hd]; exact hiff, fun hq => ?_⟩
  rw [ht] at hq
  obtain ⟨h1, h2, h3, h4⟩ := hsa hq
  refine ⟨by rw [ht]; exact h1, by rw [hp]; exact h2, by rw [hpi]; exact h3,
    fun hne => ?_⟩
  rw [ht] at hne
  rw [hd]
  exact h4 hne

/-- Shared helper: a state that keeps `s`'s lifecycle facts and whose setup
packet is not SET_ADDRESS satisfies the invariant outright. -/
theorem configInv_of_not_set_address (s X : State)
    (hiff : s.device.state = DeviceState.Configured ↔ s.device.configuration ≠ 0)
    (hnsa : is_set_address s.transfer.setup = false)
    (hd : X.device = s.device) (hsetup : X.transfer.setup = s.transfer.setup) :
    ConfigInv X := by
  refine ⟨by rw [hd]; exact hiff, fun hq => ?_⟩
  rw [hsetup, hnsa] at hq
  exact Bool.noConfusion hq

set_option maxHeartbeats 2000000 in
/-- Shared helper: a standard request the dispatcher declines to resolve is
never SET_ADDRESS. -/
theorem request_setup_standard_none_not_set_address (s : State)
    (h : request_setup_standard s = none) :
    is_set_address s.transfer.setup = false := by
  unfold request_setup_standard at h
  split_ifs at h with hT h0 h1 h3 h5 h6 h8 h9 h10 h11
  · simp [is_set_address, hT]
  · simp [is_set_address, h5]

/-- Shared helper: local standard-request resolution preserves the
configuration invariant from a context whose latched SET_ADDRESS facts
hold. -/
theorem configInv_request_setup_standard (s : State)
    (hiff : s.device.state = DeviceState.Configured ↔ s.device.configuration ≠ 0)
    (hsa2 : is_set_address s.transfer.setup = true →
      s.transfer.user_callback = false ∧ s.pending_configuration = none
      ∧ s.pending_interface = none)
    (r : State × List Action) (h : request_setup_standard s = some r) :
    ConfigInv r.1 := by
  rcases request_setup_standard_cases s r h with
    ⟨hb, rfl⟩ | ⟨hb, rfl⟩ | ⟨hb, rfl⟩ | ⟨hb, rfl⟩ | ⟨hb, rfl⟩ | ⟨hb, rfl⟩
    | ⟨hb, rfl⟩ | ⟨hb, rfl⟩ | ⟨hb, rfl⟩
  · exact configInv_of_not_set_address s _ hiff (by simp [is_set_address, hb])
      (request_get_status_preserves s).1 (request_get_status_preserves s).2.1
  · exact configInv_of_not_set_address s _ hiff (by simp [is_set_address, hb])
      (request_clear_feature_preserves s).1 (request_clear_feature_preserves s).2.1
  · exact configInv_of_not_set_address s _ hiff (by simp [is_set_address, hb])
      (request_set_feature_preserves s).1 (request_set_feature_preserves s).2.1
  · unfold request_set_address
    split_ifs with hrc hstate
    · refine ⟨hiff, fun hq => ?_⟩
      obtain ⟨hu, hpc, hpi⟩ := hsa2 hq
      refine ⟨hu, hpc, hpi, fun _ => ?_⟩
      rcases hstate with hds | hds <;> rw [hds] <;> decide
    · refine ⟨by rw [(control_failure_preserves s).1]; exact hiff, fun hq => ?_⟩
      rw [(control_failure_preserves s).2.1] at hq
      obtain ⟨hu, hpc, hpi⟩ := hsa2 hq
      refine ⟨?_, ?_, ?_, fun hne => absurd rfl hne⟩
      · rw [(control_failure_preserves s).2.2.1]
        exact hu
      · rw [(control_failure_preserves s).2.2.2.1]
        exact hpc
      · rw [(control_failure_preserves s).2.2.2.2.1]
        exact hpi
    · exact configInv_of_not_set_address s _ hiff
        (by simp [is_set_address, hrc])
        (control_failure_preserves s).1 (control_failure_preserves s).2.1
  · exact configInv_of_not_set_address s _ hiff (by simp [is_set_address, hb])
      (request_get_descriptor_preserves s).1 (request_get_descriptor_preserves s).2.1
  · exact configInv_of_not_set_address s _ hiff (by simp [is_set_address, hb])
      (request_get_configuration_preserves s).1
      (request_get_configuration_preserves s).2.1
  · exact configInv_of_not_set_address s _ hiff (by simp [is_set_address, hb])
      (request_set_configuration_preserves s).1
      (request_set_configuration_preserves s).2.1
  · exact configInv_of_not_set_address s _ hiff (by simp [is_set_address, hb])
      (request_get_interface_preserves s).1 (request_get_interface_preserves s).2.1
  · exact configInv_of_not_set_address s _ hiff (by simp [is_set_address, hb])
      (request_set_interface_preserves s).1 (request_set_interface_preserves s).2.1

/-- Shared helper: the whole dispatcher preserves the configuration
invariant from a context whose latched SET_ADDRESS facts hold. -/
theorem configInv_request_setup (s : State)
    (hiff : s.device.state = DeviceState.Configured ↔ s.device.configuration ≠ 0)
    (hsa2 : is_set_address s.transfer.setup = true →
      s.transfer.user_callback = false ∧ s.pending_configuration = none
      ∧ s.pending_interface = none) :
    ConfigInv (request_setup s).1 := by
  unfold request_setup
  cases h : request_setup_standard s with
  | some r => exact configInv_request_setup_standard s hiff hsa2 r h
  | none =>
    have hnsa := request_setup_standard_none_not_set_address s h
    refine ⟨hiff, fun hq => ?_⟩
    have hq' : is_set_address s.transfer.setup = true := hq
    rw [hnsa] at hq'
    exact Bool.noConfusion hq'

/-- Shared helper: a successful `control_in` step never changes the setup
packet, the user_callback flag or the stage. -/
theorem control_in_some_fields (P : Nat) (t : control_transfer_t) (ps : Nat)
    (t' : control_transfer_t) (h : control_in P t = some (ps, t')) :
    t'.setup = t.setup ∧ t'.user_callback = t.user_callback
    ∧ t'.stage = t.stage := by
  unfold control_in at h
  split_ifs at h
  · simp only [Option.some.injEq, Prod.mk.injEq] at h
    rw [← h.2]
    exact ⟨rfl, rfl, rfl⟩
  · simp only [Option.some.injEq, Prod.mk.injEq] at h
    rw [← h.2]
    exact ⟨rfl, rfl, rfl⟩

/-- Shared helper: `complete_request` on a collaborator-deferred request
preserves the configuration invariant. -/
theorem configInv_complete_request (s : State) (result : RequestResult)
    (size : Nat) (hinv : ConfigInv s)
    (hu : s.transfer.user_callback = true) :
    ConfigInv (complete_request s result size).1 := by
  obtain ⟨hiff, hsa⟩ := hinv
  have hnsa : is_set_address s.transfer.setup = false := by
    cases hqq : is_set_address s.transfer.setup
    · rfl
    · rw [(hsa hqq).1] at hu
      exact Bool.noConfusion hu
  cases result with
  | Send =>
    exact configInv_of_not_set_address s _ hiff hnsa
      (control_send_preserves s size).1 (control_send_preserves s size).2.1
  | Receive =>
    exact configInv_of_not_set_address s _ hiff hnsa
      (control_receive_preserves s size).1 (control_receive_preserves s size).2.1
  | Success =>
    exact configInv_of_not_set_address s _ hiff hnsa
      (control_success_preserves s).1 (control_success_preserves s).2.1
  | Failure =>
    exact configInv_of_not_set_address s _ hiff hnsa
      (control_failure_preserves s).1 (control_failure_preserves s).2.1
  | PassThrough =>
    unfold complete_request
    dsimp only
    cases h : request_setup_standard s with
    | some r =>
      exact configInv_request_setup_standard s hiff
        (fun hq => absurd hq (by rw [hnsa]; decide)) r h
    | none =>
      exact configInv_of_not_set_address s _ hiff hnsa
        (control_failure_preserves s).1 (control_failure_preserves s).2.1

/-- Shared helper: every operation preserves the configuration invariant. -/
theorem configInv_step (s : State) (op : Op) (ih : ConfigInv s) :
    ConfigInv (step s op).1 := by
  obtain ⟨hiff, hsa⟩ := ih
  cases op with
  | power powered => exact ⟨hiff, hsa⟩
  | suspend suspended => exact ⟨hiff, hsa⟩
  | sof frame => exact ⟨hiff, hsa⟩
  | reset =>
    show ConfigInv (reset s).1
    unfold reset
    dsimp only
    constructor
    · rw [change_state_sets_state, (change_state_preserves _ _).2.2.2.1]
      simp
    · intro hq
      rw [(change_state_preserves _ _).2.1] at hq
      dsimp only at hq
      exact absurd hq (by decide)
  | ep0_setup data =>
    show ConfigInv (request_setup
      { s with transfer := control_setup (decode_setup_packet data)
               pending_configuration := none
               pending_interface := none }).1
    exact configInv_request_setup _ hiff (fun _ => ⟨rfl, rfl, rfl⟩)
  | ep0_in =>
    show ConfigInv (ep0_in s).1
    unfold ep0_in
    cases hst : s.transfer.stage with
    | Setup =>
      exact ⟨hiff, fun hq => ⟨(hsa hq).1, (hsa hq).2.1, (hsa hq).2.2.1,
        fun hne => absurd rfl hne⟩⟩
    | DataOut =>
      exact ⟨hiff, fun hq => ⟨(hsa hq).1, (hsa hq).2.1, (hsa hq).2.2.1,
        fun hne => absurd rfl hne⟩⟩
    | DataIn =>
      cases hc : control_in s.max_packet_size_ep0 s.transfer with
      | some v =>
        obtain ⟨ps, t'⟩ := v
        obtain ⟨hsetup, hucb, hstg⟩ :=
          control_in_some_fields s.max_packet_size_ep0 s.transfer ps t' hc
        refine ⟨hiff, fun hq => ?_⟩
        dsimp only at hq
        rw [hsetup] at hq
        obtain ⟨h1, h2, h3, h4⟩ := hsa hq
        refine ⟨?_, h2, h3, fun _ => h4 (by rw [hst]; decide)⟩
        show t'.user_callback = false
        rw [hucb]
        exact h1
      | none =>
        refine ⟨hiff, fun hq => ?_⟩
        obtain ⟨h1, h2, h3, h4⟩ := hsa hq
        exact ⟨h1, h2, h3, fun _ => h4 (by rw [hst]; decide)⟩
    | Status =>
      dsimp only
      split_ifs with h1 hv
      · obtain ⟨hu, hpend, hpi, hconf⟩ := hsa h1
        have hnc : s.device.state ≠ DeviceState.Configured :=
          hconf (by rw [hst]; decide)
        have hc0 : s.device.configuration = 0 := by
          by_contra hcfg
          exact hnc (hiff.mpr hcfg)
        constructor
        · rw [change_state_sets_state, (change_state_preserves _ _).2.2.2.1]
          dsimp only
          rw [hc0]
          simp
        · intro hq
          rw [(change_state_preserves _ _).2.1] at hq
          refine ⟨?_, ?_, ?_, fun hne => ?_⟩
          · rw [(change_state_preserves _ _).2.1]
            exact hu
          · rw [(change_state_preserves _ _).2.2.2.2.1]
            exact hpend
          · rw [(change_state_preserves _ _).2.2.2.2.2]
            exact hpi
          · exact absurd (by rw [(change_state_preserves _ _).2.1]) hne
      · obtain ⟨hu, hpend, hpi, hconf⟩ := hsa h1
        have hnc : s.device.state ≠ DeviceState.Configured :=
          hconf (by rw [hst]; decide)
        have hc0 : s.device.configuration = 0 := by
          by_contra hcfg
          exact hnc (hiff.mpr hcfg)
        constructor
        · rw [change_state_sets_state, (change_state_preserves _ _).2.2.2.1]
          dsimp only
          rw [hc0]
          simp [hnc]
        · intro hq
          rw [(change_state_preserves _ _).2.1] at hq
          refine ⟨?_, ?_, ?_, fun hne => ?_⟩
          · rw [(change_state_preserves _ _).2.1]
            exact hu
          · rw [(change_state_preserves _ _).2.2.2.2.1]
            exact hpend
          · rw [(change_state_preserves _ _).2.2.2.2.2]
            exact hpi
          · exact absurd (by rw [(change_state_preserves _ _).2.1]) hne
      · exact ⟨hiff, fun hq => absurd hq h1⟩
  | ep0_out =>
    show ConfigInv (ep0_out s).1
    unfold ep0_out
    cases hst : s.transfer.stage with
    | Setup =>
      exact ⟨hiff, fun hq => ⟨(hsa hq).1, (hsa hq).2.1, (hsa hq).2.2.1,
        fun hne => absurd rfl hne⟩⟩
    | DataIn =>
      exact ⟨hiff, fun hq => ⟨(hsa hq).1, (hsa hq).2.1, (hsa hq).2.2.1,
        fun hne => absurd rfl hne⟩⟩
    | Status =>
      exact ⟨hiff, fun hq => ⟨(hsa hq).1, (hsa hq).2.1, (hsa hq).2.2.1,
        fun hne => absurd rfl hne⟩⟩
    | DataOut =>
      dsimp only
      split_ifs with hrem hnot
      · refine ⟨hiff, fun hq => ?_⟩
        obtain ⟨h1, h2, h3, h4⟩ := hsa hq
        exact ⟨h1, h2, h3, fun _ => h4 (by rw [hst]; decide)⟩
      · refine ⟨hiff, fun hq => ?_⟩
        obtain ⟨h1, h2, h3, h4⟩ := hsa hq
        exact ⟨h1, h2, h3, fun _ => h4 (by rw [hst]; decide)⟩
      · refine ⟨hiff, fun hq => ?_⟩
        obtain ⟨h1, h2, h3, h4⟩ := hsa hq
        exact ⟨h1, h2, h3, fun _ => h4 (by rw [hst]; decide)⟩
  | complete_request result size =>
    show ConfigInv
      (if s.transfer.user_callback = true then complete_request s result size
       else (s, [])).1
    by_cases hu : s.transfer.user_callback = true
    · rw [if_pos hu]
      exact configInv_complete_request s result size ⟨hiff, hsa⟩ hu
    · rw [if_neg hu]
      exact ⟨hiff, hsa⟩
  | complete_set_configuration success =>
    show ConfigInv (complete_set_configuration s success).1
    unfold complete_set_configuration
    cases hp : s.pending_configuration with
    | none => exact ⟨hiff, hsa⟩
    | some c =>
      dsimp only
      split_ifs with hsuc hv
      · constructor
        · rw [(control_success_preserves _).1, change_state_sets_state,
            (change_state_preserves _ _).2.2.2.1]
          dsimp only
          simp [hv]
        · intro hq
          rw [(control_success_preserves _).2.1,
            (change_state_preserves _ _).2.1] at hq
          have hnone := (hsa hq).2.1
          rw [hp] at hnone
          exact Option.noConfusion hnone
      · constructor
        · rw [(control_success_preserves _).1, change_state_sets_state,
            (change_state_preserves _ _).2.2.2.1]
          dsimp only
          simp [hv]
        · intro hq
          rw [(control_success_preserves _).2.1,
            (change_state_preserves _ _).2.1] at hq
          have hnone := (hsa hq).2.1
          rw [hp] at hnone
          exact Option.noConfusion hnone
      · refine ⟨by rw [(control_failure_preserves _).1]; exact hiff, fun hq => ?_⟩
        rw [(control_failure_preserves _).2.1] at hq
        have hq' : is_set_address s.transfer.setup = true := hq
        have hnone := (hsa hq').2.1
        rw [hp] at hnone
        exact Option.noConfusion hnone
  | complete_set_interface success =>
    show ConfigInv (complete_set_interface s success).1
    unfold complete_set_interface
    cases hp : s.pending_interface with
    | none => exact ⟨hiff, hsa⟩
    | some pr =>
      dsimp only
      split_ifs with hsuc
      · refine ⟨by rw [(control_success_preserves _).1]; exact hiff, fun hq => ?_⟩
        rw [(control_success_preserves _).2.1] at hq
        have hq' : is_set_address s.transfer.setup = true := hq
        have hnone := (hsa hq').2.2.1
        rw [hp] at hnone
        exact Option.noConfusion hnone
      · refine ⟨by rw [(control_failure_preserves _).1]; exact hiff, fun hq => ?_⟩
        rw [(control_failure_preserves _).2.1] at hq
        have hq' : is_set_address s.transfer.setup = true := hq
        have hnone := (hsa hq').2.2.1
        rw [hp] at hnone
        exact Option.noConfusion hnone
  | endpoint_add e' m' ty' cb' =>
    obtain ⟨hd, ht, hp, hpi⟩ := endpoint_add_preserves_control s e' m' ty' cb'
    exact configInv_of_control_eq s _ hd ht hp hpi ⟨hiff, hsa⟩
  | endpoint_remove e' =>
    obtain ⟨hd, ht, hp, hpi⟩ := endpoint_remove_preserves_control s e'
    exact configInv_of_control_eq s _ hd ht hp hpi ⟨hiff, hsa⟩
  | endpoint_stall e' =>
    obtain ⟨hd, ht, hp, hpi⟩ := endpoint_stall_preserves_control s e'
    exact configInv_of_control_eq s _ hd ht hp hpi ⟨hiff, hsa⟩
  | endpoint_unstall e' =>
    obtain ⟨hd, ht, hp, hpi⟩ := endpoint_unstall_preserves_control s e'
    exact configInv_of_control_eq s _ hd ht hp hpi ⟨hiff, hsa⟩
  | read_start e' =>
    obtain ⟨hd, ht, hp, hpi⟩ := read_start_preserves_control s e'
    exact configInv_of_control_eq s _ hd ht hp hpi ⟨hiff, hsa⟩
  | write e' size =>
    obtain ⟨hd, ht, hp, hpi⟩ := write_preserves_control s e' size
    exact configInv_of_control_eq s _ hd ht hp hpi ⟨hiff, hsa⟩

/-- C4: in every reachable state of the device, DeviceLifecycleState equals
Configured if and only if the latched configuration number is non-zero. -/
theorem configured_iff_nonzero_configuration (s : State) (h : Reachable s) :
    s.device.state = DeviceState.Configured ↔ s.device.configuration ≠ 0 := by
  suffices hinv : ConfigInv s from hinv.1
  induction h with
  | init P =>
    exact ⟨by simp [initState],
      fun hq => absurd (show is_set_address reset_transfer.setup = true from hq)
        (by decide)⟩
  | next s' op hs ih => exact configInv_step s' op ih

/-- C4 witness: the invariant holds at the freshly initialised device (state
Attached, configuration 0), which is reachable by construction. -/
theorem configured_iff_nonzero_configuration_witness :
    ((initState 64).device.state = DeviceState.Configured
      ↔ (initState 64).device.configuration ≠ 0) :=
  configured_iff_nonzero_configuration (initState 64) (Reachable.init 64)

end USBDevice

